import Mathlib

/-!
Verification of the CP-intake chatbot core (conversation phase state machine,
implied-answer resolution, deterministic fallback interpreters, points-based
ranking/eligibility engine).

The embedding models the Python sources:
  * case_data_manager.py   (CaseDataManager: points, ranking, apply_* helpers)
  * nlu_processor.py       (NLUProcessor fallback interpreters; the external
                            Claude oracle is modelled as unavailable, i.e.
                            _query_claude returns "", so every interpret_*
                            method reduces to its deterministic fallback)
  * eligibility_checker.py (EligibilityChecker over an abstract criteria table)
  * config_manager.py      (ConversationManager: phases, implied answers,
                            analyze_response and all phase handlers)

Strings are modelled as `List Char` (the sources only ever exercise ASCII
behaviour of `str.lower`/`str.strip`/`in`).  Python floats carrying ages are
modelled as exact rationals; `round(x, 1)` is modelled as exact decimal
rounding half-to-even (Python's rule on the decimal reading); every claim
settled below is insensitive to binary-float representation error.
-/

/-! ## String utilities (Python `str` semantics on ASCII input) -/

/-- The apostrophe character (several keyword lists in the source contain it). -/
def apoc : Char := Char.ofNat 39

/-- Python `\s` (ASCII range): space, tab, newline, carriage return, vertical
tab, form feed. -/
def isPySpace (c : Char) : Bool :=
  c = ' ' || c = '\t' || c = '\n' || c = '\r' || c = Char.ofNat 11 || c = Char.ofNat 12

/-- Python `\w` on ASCII: letters, digits, underscore. -/
def isPyWord (c : Char) : Bool :=
  c.isAlphanum || c = '_'

/-- Python `str.lower` on ASCII text. -/
def toLowerL (s : List Char) : List Char := s.map Char.toLower

/-- Python `str.strip` (whitespace from both ends). -/
def pyStrip (s : List Char) : List Char :=
  ((s.dropWhile isPySpace).reverse.dropWhile isPySpace).reverse

/-- Match the literal `pat` at the head of `s`; return the remainder. -/
def litAt : List Char → List Char → Option (List Char)
  | [], s => some s
  | _ :: _, [] => none
  | p :: ps, c :: cs => if p = c then litAt ps cs else none

/-- Python `pat in s` (substring containment). -/
def containsL (pat : List Char) : List Char → Bool
  | [] => pat.isEmpty
  | c :: cs => (litAt pat (c :: cs)).isSome || containsL pat cs

/-- Python `any(p in s for p in pats)`. -/
def containsAny (s : List Char) (pats : List (List Char)) : Bool :=
  pats.any (fun p => containsL p s)

/-- Greedy one-or-more span of characters satisfying `p` (`p+` in a regex
whose continuation cannot consume a `p`-character, so no backtracking is
needed; each use site is justified in a comment). -/
def span1 (p : Char → Bool) (s : List Char) : Option (List Char × List Char) :=
  let ds := s.takeWhile p
  if ds.isEmpty then none else some (ds, s.drop ds.length)

/-- Greedy zero-or-more span (`p*` with a continuation disjoint from `p`). -/
def spanStar (p : Char → Bool) (s : List Char) : List Char :=
  s.dropWhile p

/-- Greedy optional single character (`c?` where the continuation cannot
start with `c`). -/
def optChar (c : Char) (s : List Char) : List Char :=
  match s with
  | x :: xs => if x = c then xs else s
  | [] => s

/-- Ordered alternation of literals (the use sites have pairwise
non-overlapping viable alternatives, matching Python's leftmost-alternative
preference). -/
def tryLits : List (List Char) → List Char → Option (List Char)
  | [], _ => none
  | l :: ls, s =>
    match litAt l s with
    | some r => some r
    | none => tryLits ls s

/-- `re.search`: try the position matcher `f` at every start position,
leftmost first. -/
def searchL {α : Type} (f : List Char → Option α) : List Char → Option α
  | [] => f []
  | c :: cs =>
    match f (c :: cs) with
    | some r => some r
    | none => searchL f cs

/-- `re.search` for a pattern needing the preceding character (for `\b`):
`f prev rest` is tried at every position, `prev` being the character just
before the position (`none` at the very start). -/
def searchB {α : Type} (f : Option Char → List Char → Option α) :
    Option Char → List Char → Option α
  | prev, [] => f prev []
  | prev, c :: cs =>
    match f prev (c :: cs) with
    | some r => some r
    | none => searchB f (some c) cs

/-- `\b` before a word character: the previous character (if any) is not a
word character. -/
def boundaryOk : Option Char → Bool
  | none => true
  | some c => ¬ isPyWord c

/-- `\b` after a word character: the next character (if any) is not a word
character. -/
def endBoundary : List Char → Bool
  | [] => true
  | c :: _ => ¬ isPyWord c

/-- Numeric value of a digit string. -/
def digitsToNat (ds : List Char) : Nat :=
  ds.foldl (fun a c => a * 10 + (c.toNat - 48)) 0

/-- Capture for `(\d+(?:\.\d+)?)`: greedy digits, then optionally a dot
followed by greedy digits (the continuations at all use sites cannot consume
a digit, so greedy spans are exact). Returns (capture, remainder). -/
def numCap (s : List Char) : Option (List Char × List Char) :=
  match span1 Char.isDigit s with
  | none => none
  | some (ds, rest) =>
    match rest with
    | '.' :: r2 =>
      match span1 Char.isDigit r2 with
      | some (fs, r3) => some (ds ++ '.' :: fs, r3)
      | none => some (ds, rest)
    | _ => some (ds, rest)

/-- Python `float()` on the capture shapes produced here (`D+` or `D+.D+`),
as an exact rational; any other shape is a `ValueError` (`none`). -/
def parseFloatQ (s : List Char) : Option ℚ :=
  let intPart := s.takeWhile Char.isDigit
  let rest := s.drop intPart.length
  if intPart.isEmpty then none
  else
    match rest with
    | [] => some (digitsToNat intPart : ℚ)
    | '.' :: frac =>
      if ¬ frac.isEmpty ∧ frac.all Char.isDigit then
        some ((digitsToNat intPart : ℚ) + (digitsToNat frac : ℚ) / ((10 : ℚ) ^ frac.length))
      else none
    | _ => none

/-- Floor of a rational as an integer (`num.fdiv den`, the denominator being
positive), kept kernel-computable. -/
def ratFloorZ (q : ℚ) : ℤ := q.num.fdiv (q.den : ℤ)

/-- Round half to even to an integer (Python `round` on the exact decimal). -/
def roundHalfEvenZ (q : ℚ) : ℤ :=
  let f := ratFloorZ q
  let r := q - (f : ℚ)
  if r < 1/2 then f
  else if 1/2 < r then f + 1
  else if f % 2 = 0 then f else f + 1

/-- Python `round(x, 1)` on the exact decimal reading. -/
def round1 (q : ℚ) : ℚ := (roundHalfEvenZ (q * 10) : ℚ) / 10

/-! ## Ranking engine (`CaseDataManager`) -/

/-- The ranking tiers (`'very high'`, `'high'`, `'normal'`, `'low'` in the
source's `ranking_thresholds`). -/
inductive Ranking
  | veryHigh
  | high
  | normal
  | low
deriving DecidableEq, Repr

/-- `CaseDataManager.ranking_thresholds`. -/
def rankingThreshold : Ranking → Int
  | .veryHigh => 80
  | .high => 65
  | .normal => 40
  | .low => 0

/-- Position of a tier in the descending scan order (for "highest tier"
statements). -/
def rankIdx : Ranking → Nat
  | .veryHigh => 3
  | .high => 2
  | .normal => 1
  | .low => 0

/-- `CaseDataManager._calculate_ranking`: scan `['very high', 'high',
'normal', 'low']` in order, return the first tier whose threshold the points
meet, falling back to `'low'`. -/
def calculateRanking (points : Int) : Ranking :=
  if 80 ≤ points then .veryHigh
  else if 65 ≤ points then .high
  else if 40 ≤ points then .normal
  else if 0 ≤ points then .low
  else .low

/-- Per-phase completion map stored inside the case record
(`case_data['phases_completed']`). -/
structure PhasesCompleted where
  age : Bool := false
  pregnancy : Bool := false
  nicu : Bool := false
  nicuDuration : Bool := false
  hieTherapy : Bool := false
  brainScan : Bool := false
  milestones : Bool := false
  lawyer : Bool := false
  state : Bool := false
deriving DecidableEq, Repr

/-- The case record (`CaseDataManager.initialize_case_data`; the `timestamp`
field is external wall-clock data and is omitted). Defaults are the
initializer's values. -/
structure CaseData where
  age : Option ℚ := none
  state : Option (List Char) := none
  weeksPregnant : Int := 0
  difficultDelivery : Bool := false
  points : Int := 50
  ranking : Ranking := .normal
  phasesCompleted : PhasesCompleted := {}
deriving DecidableEq, Repr

/-- `CaseDataManager.update_points`: add the delta, clamp at 0, recompute the
ranking (the source only stores the new ranking when it differs, which is
observationally the same). The `reason` string is only logged and is omitted. -/
def updatePoints (cd : CaseData) (delta : Int) : CaseData :=
  let p0 := cd.points + delta
  let p := if p0 < 0 then 0 else p0
  let r := calculateRanking p
  { cd with points := p, ranking := if r ≠ cd.ranking then r else cd.ranking }

/-- `CaseDataManager.apply_pregnancy_points`. -/
def applyPregnancyPoints (cd : CaseData) (weeks : Option Int) (difficultDelivery : Bool) :
    CaseData :=
  let cd :=
    match weeks with
    | some w =>
      let cd := { cd with weeksPregnant := w }
      if w < 30 then updatePoints cd 15
      else if w < 36 then updatePoints cd 10
      else updatePoints cd (-5)
    | none => cd
  let cd := { cd with difficultDelivery := difficultDelivery }
  if difficultDelivery then updatePoints cd 15 else updatePoints cd (-10)

/-- `CaseDataManager.apply_nicu_points`. -/
def applyNicuPoints (cd : CaseData) (hadNicu : Bool) (durationDays : Option Int) :
    CaseData :=
  if ¬ hadNicu then updatePoints cd (-15)
  else
    let cd := updatePoints cd 10
    match durationDays with
    | some d =>
      if 0 < d then
        if 30 < d then updatePoints cd 15
        else if 14 < d then updatePoints cd 10
        else if 7 < d then updatePoints cd 5
        else updatePoints cd 3
      else cd
    | none => cd

/-- `CaseDataManager.apply_hie_therapy_points`. -/
def applyHieTherapyPoints (cd : CaseData) (receivedHie : Bool) : CaseData :=
  if receivedHie then updatePoints cd 40 else cd

/-- `CaseDataManager.apply_brain_scan_points`. -/
def applyBrainScanPoints (cd : CaseData) (hadScan : Bool) : CaseData :=
  if hadScan then updatePoints cd 20 else updatePoints cd (-10)

/-- `CaseDataManager.apply_milestones_points`. -/
def applyMilestonesPoints (cd : CaseData) (hasDelays : Bool) : CaseData :=
  if hasDelays then updatePoints cd 15 else updatePoints cd (-5)

/-- `CaseDataManager.apply_lawyer_points`. -/
def applyLawyerPoints (cd : CaseData) (prevConsultation : Bool) : CaseData :=
  if prevConsultation then updatePoints cd (-5) else updatePoints cd 5

/-- The invariant claimed for the case record: points are non-negative and
the stored ranking is exactly the tier recomputed from the points. -/
def pointsRankingInv (cd : CaseData) : Prop :=
  0 ≤ cd.points ∧ cd.ranking = calculateRanking cd.points

/-! ## Fallback NLU interpreters (`NLUProcessor`)

The external oracle (`_query_claude`) is modelled as unavailable: every
`interpret_*` method reduces to its deterministic pattern fallback, exactly
as the spec's "oracle unavailable" mode prescribes. -/

/-- `NLUProcessor.text_to_num` (spelled-out number words), in source order. -/
def textToNumKeys : List (List Char × ℚ) :=
  [("zero".data, 0), ("one".data, 1), ("two".data, 2), ("three".data, 3),
   ("four".data, 4), ("five".data, 5), ("six".data, 6), ("seven".data, 7),
   ("eight".data, 8), ("nine".data, 9), ("ten".data, 10), ("eleven".data, 11),
   ("twelve".data, 12), ("thirteen".data, 13), ("fourteen".data, 14),
   ("fifteen".data, 15), ("sixteen".data, 16), ("seventeen".data, 17),
   ("eighteen".data, 18), ("nineteen".data, 19), ("twenty".data, 20),
   ("thirty".data, 30), ("forty".data, 40), ("fifty".data, 50),
   ("sixty".data, 60), ("seventy".data, 70), ("eighty".data, 80),
   ("ninety".data, 90)]

/-- `age_str in self.text_to_num` followed by the dictionary read. -/
def textToNum (k : List Char) : Option ℚ :=
  List.lookup k textToNumKeys

/-- `(\d+)\s*(?:months?|mos?)\s*old` at the current position (capture the
digits). The alternatives `months?` / `mos?` share only the prefix `mo`;
whenever the longer one matches, the shorter one's continuation fails, so
ordered first-match is exact. -/
def matchMonthsOldAt (s : List Char) : Option (List Char) :=
  match span1 Char.isDigit s with
  | none => none
  | some (ds, r1) =>
    let r2 := spanStar isPySpace r1
    let unitRest : Option (List Char) :=
      match litAt ("month".data) r2 with
      | some r => some (optChar 's' r)
      | none =>
        match litAt ("mo".data) r2 with
        | some r => some (optChar 's' r)
        | none => none
    match unitRest with
    | none => none
    | some r3 =>
      match litAt ("old".data) (spanStar isPySpace r3) with
      | some _ => some ds
      | none => none

/-- `almost\s*(\d+)` at the current position. -/
def matchAlmostAt (s : List Char) : Option (List Char) :=
  match litAt ("almost".data) s with
  | none => none
  | some r =>
    match span1 Char.isDigit (spanStar isPySpace r) with
    | some (ds, _) => some ds
    | none => none

/-- `NLUProcessor` fraction modifiers, in source (dict-insertion) order. -/
def fractionMods : List (List Char × ℚ) :=
  [("and a half".data, 1/2), ("and 1/2".data, 1/2),
   ("and a quarter".data, 1/4), ("and 1/4".data, 1/4),
   ("and three quarters".data, 3/4), ("and 3/4".data, 3/4)]

/-- `(\d+)\s*<lit>` at the current position (capture the digits). -/
def matchNumThenLitAt (lit : List Char) (s : List Char) : Option (List Char) :=
  match span1 Char.isDigit s with
  | none => none
  | some (ds, r) =>
    match litAt lit (spanStar isPySpace r) with
    | some _ => some ds
    | none => none

/-- The fraction-modifier loop of `_parse_age_patterns`: for each pattern in
order, if it occurs as a substring, search `(\d+)\s*<pattern>`; on a match
return base + modifier (the `float` of a digit capture cannot fail). -/
def fractionScan : List (List Char × ℚ) → List Char → Option ℚ
  | [], _ => none
  | (pat, m) :: rest, s =>
    if containsL pat s then
      match searchL (matchNumThenLitAt pat) s with
      | some ds =>
        match parseFloatQ ds with
        | some b => some (b + m)
        | none => fractionScan rest s
      | none => fractionScan rest s
    else fractionScan rest s

/-- `(?:year|yr|y)s?` at the current position. The three alternatives start
with `y`; when an earlier alternative matches but the pattern's continuation
fails, the later alternatives' continuations fail too (checked per pattern),
so ordered first-match is exact. -/
def dropYearUnit (s : List Char) : Option (List Char) :=
  match litAt ("year".data) s with
  | some r => some (optChar 's' r)
  | none =>
    match litAt ("yr".data) s with
    | some r => some (optChar 's' r)
    | none =>
      match s with
      | 'y' :: r => some (optChar 's' r)
      | _ => none

/-- Pattern 1: `(\d+(?:\.\d+)?)\s*(?:year|yr|y)s?\s*old`. -/
def agePat1At (s : List Char) : Option (List Char) :=
  match numCap s with
  | none => none
  | some (ds, r1) =>
    match dropYearUnit (spanStar isPySpace r1) with
    | none => none
    | some r2 =>
      match litAt ("old".data) (spanStar isPySpace r2) with
      | some _ => some ds
      | none => none

/-- Pattern 2: `(\d+(?:\.\d+)?)\s*(?:year|yr|y)s?`. -/
def agePat2At (s : List Char) : Option (List Char) :=
  match numCap s with
  | none => none
  | some (ds, r1) =>
    match dropYearUnit (spanStar isPySpace r1) with
    | some _ => some ds
    | none => none

/-- Pattern 3: `(?:is|turned|age)\s*(\d+(?:\.\d+)?)` (alternative first
characters are pairwise distinct, so ordered first-match is exact). -/
def agePat3At (s : List Char) : Option (List Char) :=
  match tryLits [("is".data), ("turned".data), ("age".data)] s with
  | none => none
  | some r =>
    match numCap (spanStar isPySpace r) with
    | some (ds, _) => some ds
    | none => none

/-- Pattern 4: `^(\d+(?:\.\d+)?)$` (anchored: whole string). -/
def agePat4Full (s : List Char) : Option (List Char) :=
  match numCap s with
  | some (ds, []) => some ds
  | _ => none

/-- Patterns 5-7: `(\d+)\s*(?:<alt1>|<alt2>)` (the two alternatives differ
within their common prefix's next character, so at most one matches). -/
def agePatFracAt (alts : List (List Char)) (s : List Char) : Option (List Char) :=
  match span1 Char.isDigit s with
  | none => none
  | some (ds, r) =>
    if alts.any (fun l => (litAt l (spanStar isPySpace r)).isSome) then some ds
    else none

/-- Patterns 8-9: `<lit>\s*(\d+)`. -/
def agePatLitNumAt (lit : List Char) (s : List Char) : Option (List Char) :=
  match litAt lit s with
  | none => none
  | some r =>
    match span1 Char.isDigit (spanStar isPySpace r) with
    | some (ds, _) => some ds
    | none => none

/-- `NLUProcessor._parse_age_patterns`'s `age_patterns` list, in order; each
entry is the whole-string search for one pattern, returning the captured
group. -/
def agePatterns : List (List Char → Option (List Char)) :=
  [searchL agePat1At,
   searchL agePat2At,
   searchL agePat3At,
   agePat4Full,
   searchL (agePatFracAt [("and a half".data), ("and 1/2".data)]),
   searchL (agePatFracAt [("and three quarters".data), ("and 3/4".data)]),
   searchL (agePatFracAt [("and a quarter".data), ("and 1/4".data)]),
   searchL (agePatLitNumAt ("just turned".data)),
   searchL (agePatLitNumAt ("about to turn".data))]

/-- The `for pattern in age_patterns` loop: on a match, look the capture up
in `text_to_num` (returned unvalidated), else parse it as a float and return
it only if it lies in [0, 25]; otherwise move on to the next pattern. -/
def tryAgePatterns : List (List Char → Option (List Char)) → List Char → Option ℚ
  | [], _ => none
  | f :: fs, s =>
    match f s with
    | none => tryAgePatterns fs s
    | some cap =>
      match textToNum cap with
      | some v => some v
      | none =>
        match parseFloatQ cap with
        | none => tryAgePatterns fs s
        | some a => if 0 ≤ a ∧ a ≤ 25 then some a else tryAgePatterns fs s

/-- `NLUProcessor._parse_age_patterns`: lower-case and strip, then try the
months branch, the `almost` branch, the fraction-modifier loop, and finally
the numeric pattern list. Only the last branch range-validates its result. -/
def parseAgePatterns (userInput : List Char) : Option ℚ :=
  let ageInput := pyStrip (toLowerL userInput)
  match searchL matchMonthsOldAt ageInput with
  | some ds => some (round1 ((digitsToNat ds : ℚ) / 12))
  | none =>
    match searchL matchAlmostAt ageInput with
    | some ds => some ((digitsToNat ds : ℚ) - 1/10)
    | none =>
      match fractionScan fractionMods ageInput with
      | some v => some v
      | none => tryAgePatterns agePatterns ageInput

/-- `NLUProcessor.interpret_age` with the oracle unavailable. -/
def interpretAge (userInput : List Char) : Option ℚ :=
  if (pyStrip userInput).isEmpty then none
  else parseAgePatterns userInput

/-- The duration units of the NICU-duration pattern. -/
inductive DurUnit
  | day
  | week
  | month
deriving DecidableEq, Repr

/-- The unit conversion shared by `_parse_duration_patterns` and
`_analyze_for_implied_answers` (`week` ×7, `month` ×30, `day` ×1; Python
computes `int(float(n) * k)`, exact for integral `n`). -/
def durConvert (n : Nat) : DurUnit → Int
  | .day => (n : Int)
  | .week => (n : Int) * 7
  | .month => (n : Int) * 30

/-- `(?:days?|weeks?|months?)` at the current position (first characters
`d`/`w`/`m` are pairwise distinct). Returns the unit and the remainder. -/
def dropDurUnit (s : List Char) : Option (DurUnit × List Char) :=
  match litAt ("day".data) s with
  | some r => some (.day, optChar 's' r)
  | none =>
    match litAt ("week".data) s with
    | some r => some (.week, optChar 's' r)
    | none =>
      match litAt ("month".data) s with
      | some r => some (.month, optChar 's' r)
      | none => none

/-- The tail `\s+(\d+)\s+(days?|weeks?|months?)\s+(?:in|at)\s+(?:the\s+)?(?:nicu|intensive care)`
of the NICU-duration pattern. Every greedy span is followed by a
disjoint-class continuation, and each ordered alternation has pairwise
non-overlapping viable alternatives, so no backtracking is needed. -/
def nicuDurTail (r : List Char) : Option (Nat × DurUnit) :=
  match span1 isPySpace r with
  | none => none
  | some (_, r1) =>
    match span1 Char.isDigit r1 with
    | none => none
    | some (ds, r2) =>
      match span1 isPySpace r2 with
      | none => none
      | some (_, r3) =>
        match dropDurUnit r3 with
        | none => none
        | some (u, r4) =>
          match span1 isPySpace r4 with
          | none => none
          | some (_, r5) =>
            match tryLits [("in".data), ("at".data)] r5 with
            | none => none
            | some r6 =>
              match span1 isPySpace r6 with
              | none => none
              | some (_, r7) =>
                let r8 :=
                  match litAt ("the".data) r7 with
                  | some t =>
                    match span1 isPySpace t with
                    | some (_, t2) => t2
                    | none => r7
                  | none => r7
                if (litAt ("nicu".data) r8).isSome
                    || (litAt ("intensive care".data) r8).isSome then
                  some (digitsToNat ds, u)
                else none

/-- `(?:spent|stayed|was in)(?:\s+\w+)?\s+(\d+)\s+(days?|weeks?|months?)\s+(?:in|at)\s+(?:the\s+)?(?:nicu|intensive care)`
at the current position (the shared NICU-duration regex). The optional
`(?:\s+\w+)?` is tried greedily first; shortening its maximal `\s+`/`\w+`
spans always leaves a same-class character for the disjoint continuation, so
full-group try-then-drop is exact Python backtracking. -/
def matchNicuDurAt (s : List Char) : Option (Nat × DurUnit) :=
  match tryLits [("spent".data), ("stayed".data), ("was in".data)] s with
  | none => none
  | some r =>
    let withWord : Option (Nat × DurUnit) :=
      match span1 isPySpace r with
      | none => none
      | some (_, r1) =>
        match span1 isPyWord r1 with
        | none => none
        | some (_, r2) => nicuDurTail r2
    match withWord with
    | some x => some x
    | none => nicuDurTail r

/-- `(\d+)\s*(?:months?|mos?)` at the current position. -/
def matchMonthNumAt (s : List Char) : Option Nat :=
  match span1 Char.isDigit s with
  | none => none
  | some (ds, r) =>
    let r1 := spanStar isPySpace r
    if (litAt ("month".data) r1).isSome || (litAt ("mo".data) r1).isSome then
      some (digitsToNat ds)
    else none

/-- `(\d+)\s*(?:weeks?|wks?)` at the current position. -/
def matchWeekNumAt (s : List Char) : Option Nat :=
  match span1 Char.isDigit s with
  | none => none
  | some (ds, r) =>
    let r1 := spanStar isPySpace r
    if (litAt ("week".data) r1).isSome || (litAt ("wk".data) r1).isSome then
      some (digitsToNat ds)
    else none

/-- `(\d+)\s*(?:days?|d)\b` at the current position: both alternatives are
tried (with the optional `s` greedy) against the trailing word boundary,
exactly as Python's backtracking would. -/
def matchDayNumAt (s : List Char) : Option Nat :=
  match span1 Char.isDigit s with
  | none => none
  | some (ds, r) =>
    let r1 := spanStar isPySpace r
    let dayAlt : Bool :=
      match litAt ("day".data) r1 with
      | some r2 => endBoundary (optChar 's' r2)
      | none => false
    let dAlt : Bool :=
      match r1 with
      | 'd' :: r2 => endBoundary r2
      | _ => false
    if dayAlt || dAlt then some (digitsToNat ds) else none

/-- `\b(\d+)\b` (standalone number). -/
def matchBareNumAt (prev : Option Char) (s : List Char) : Option Nat :=
  if boundaryOk prev then
    match span1 Char.isDigit s with
    | none => none
    | some (ds, r) => if endBoundary r then some (digitsToNat ds) else none
  else none

/-- A canned-phrase pattern `\b w1 \s+ (?:of\s+)? w2 s? \b` (for
`couple/few of days/weeks/months`). The optional `of\s+` group is tried
greedily then dropped, which is exact here. -/
def matchCannedAt (w1 w2 : List Char) (prev : Option Char) (s : List Char) :
    Option Unit :=
  if boundaryOk prev then
    match litAt w1 s with
    | none => none
    | some r =>
      match span1 isPySpace r with
      | none => none
      | some (_, r1) =>
        let atTail : List Char → Option Unit := fun t =>
          match litAt w2 t with
          | some r2 => if endBoundary (optChar 's' r2) then some () else none
          | none => none
        let withOf : Option Unit :=
          match litAt ("of".data) r1 with
          | some t =>
            match span1 isPySpace t with
            | some (_, t2) => atTail t2
            | none => none
          | none => none
        match withOf with
        | some u => some u
        | none => atTail r1
  else none

/-- `\babout\s+a\s+week\b`. -/
def matchAboutAWeekAt (prev : Option Char) (s : List Char) : Option Unit :=
  if boundaryOk prev then
    match litAt ("about".data) s with
    | none => none
    | some r =>
      match span1 isPySpace r with
      | none => none
      | some (_, r1) =>
        match litAt ("a".data) r1 with
        | none => none
        | some r2 =>
          match span1 isPySpace r2 with
          | none => none
          | some (_, r3) =>
            match litAt ("week".data) r3 with
            | some r4 => if endBoundary r4 then some () else none
            | none => none
  else none

/-- `\bweek\s+and\s+(?:a\s+)?half\b`. -/
def matchWeekAndHalfAt (prev : Option Char) (s : List Char) : Option Unit :=
  if boundaryOk prev then
    match litAt ("week".data) s with
    | none => none
    | some r =>
      match span1 isPySpace r with
      | none => none
      | some (_, r1) =>
        match litAt ("and".data) r1 with
        | none => none
        | some r2 =>
          match span1 isPySpace r2 with
          | none => none
          | some (_, r3) =>
            let atHalf : List Char → Option Unit := fun t =>
              match litAt ("half".data) t with
              | some r4 => if endBoundary r4 then some () else none
              | none => none
            let withA : Option Unit :=
              match litAt ("a".data) r3 with
              | some t =>
                match span1 isPySpace t with
                | some (_, t2) => atHalf t2
                | none => none
              | none => none
            match withA with
            | some u => some u
            | none => atHalf r3
  else none

/-- Whether a boundary-aware matcher fires anywhere in `s`. -/
def searchHit (f : Option Char → List Char → Option Unit) (s : List Char) : Bool :=
  (searchB f none s).isSome

/-- The canned-phrase `if/elif` chain at the end of
`_parse_duration_patterns` (reached with `total_days = 0`). -/
def durationPhrases (lo : List Char) : Int :=
  if searchHit (matchCannedAt ("couple".data) ("day".data)) lo then 2
  else if searchHit (matchCannedAt ("few".data) ("day".data)) lo then 3
  else if searchHit (matchCannedAt ("couple".data) ("week".data)) lo then 14
  else if searchHit (matchCannedAt ("few".data) ("week".data)) lo then 21
  else if searchHit matchAboutAWeekAt lo then 7
  else if searchHit matchWeekAndHalfAt lo then 10
  else if searchHit (matchCannedAt ("couple".data) ("month".data)) lo then 60
  else if searchHit (matchCannedAt ("few".data) ("month".data)) lo then 90
  else 0

/-- `NLUProcessor._parse_duration_patterns`. -/
def parseDurationPatterns (userInput : List Char) : Int :=
  let lo := toLowerL userInput
  match searchL matchNicuDurAt lo with
  | some (n, u) => durConvert n u
  | none =>
    let monthDays : Int :=
      match searchL matchMonthNumAt lo with
      | some n => (n : Int) * 30
      | none => 0
    let weekDays : Int :=
      match searchL matchWeekNumAt lo with
      | some n => (n : Int) * 7
      | none => 0
    let dayDays : Int :=
      match searchL matchDayNumAt lo with
      | some n => (n : Int)
      | none => 0
    let total := monthDays + weekDays + dayDays
    if 0 < total then total
    else
      match searchB matchBareNumAt none lo with
      | some n => if 1 ≤ n ∧ n ≤ 365 then (n : Int) else durationPhrases lo
      | none => durationPhrases lo

/-- `NLUProcessor.interpret_duration` with the oracle unavailable. -/
def interpretDuration (userInput : List Char) : Int :=
  if userInput.isEmpty then 0 else parseDurationPatterns userInput

/-- Build a keyword containing one apostrophe: `withApos a b = a ++ "'" ++ b`. -/
def withApos (a b : String) : List Char := a.data ++ apoc :: b.data

/-- `(\d+)\s*(?:weeks|week|wks|wk)` at the current position. -/
def matchWeeksUnitAt (s : List Char) : Option Nat :=
  match span1 Char.isDigit s with
  | none => none
  | some (ds, r) =>
    if (tryLits [("weeks".data), ("week".data), ("wks".data), ("wk".data)]
        (spanStar isPySpace r)).isSome then
      some (digitsToNat ds)
    else none

/-- `(\d+)\s*w\b` at the current position. -/
def matchWBoundAt (s : List Char) : Option Nat :=
  match span1 Char.isDigit s with
  | none => none
  | some (ds, r) =>
    match spanStar isPySpace r with
    | 'w' :: r2 => if endBoundary r2 then some (digitsToNat ds) else none
    | _ => none

/-- `(?:full|term|full term|full-term)\b` at the current position (no leading
boundary in the source pattern). Whenever a longer alternative would match,
`full` with its trailing boundary already matches first, so ordered per-
alternative boundary checks are exact. -/
def matchFullTermAt (s : List Char) : Option Unit :=
  let alt : List Char → Option Unit := fun lit =>
    match litAt lit s with
    | some r => if endBoundary r then some () else none
    | none => none
  match alt ("full".data) with
  | some u => some u
  | none =>
    match alt ("term".data) with
    | some u => some u
    | none =>
      match alt ("full term".data) with
      | some u => some u
      | none => alt ("full-term".data)

/-- `_parse_pregnancy_patterns`'s difficult-delivery indicator list. -/
def difficultIndicators : List (List Char) :=
  [("difficult".data), ("not easy".data), ("hard".data), ("complications".data),
   ("emergency".data), ("c-section".data), ("csection".data), ("c section".data),
   ("cesarean".data), ("forceps".data), ("vacuum".data), ("distress".data),
   ("oxygen".data), ("resuscitate".data), ("nicu".data), ("intensive care".data),
   ("problem".data), ("complication".data), ("issue".data), ("prolonged".data),
   ("stuck".data), ("trauma".data), ("injury".data), ("monitor".data),
   ("fetal".data), ("induced".data), ("induction".data), ("premature".data),
   ("preemie".data), ("breech".data)]

/-- `NLUProcessor._parse_pregnancy_patterns`: weeks via the two patterns in
order, then the full-term fallback (40 weeks), then the keyword check for
difficult delivery. -/
def parsePregnancyPatterns (userInput : List Char) : Option Int × Bool :=
  let lo := toLowerL userInput
  let weeks : Option Int :=
    match searchL matchWeeksUnitAt lo with
    | some n => some (n : Int)
    | none =>
      match searchL matchWBoundAt lo with
      | some n => some (n : Int)
      | none => none
  let weeks : Option Int :=
    match weeks with
    | some w => some w
    | none => if (searchL matchFullTermAt lo).isSome then some 40 else none
  (weeks, containsAny lo difficultIndicators)

/-- `NLUProcessor.interpret_pregnancy_details` with the oracle unavailable. -/
def interpretPregnancyDetails (userInput : List Char) : Option Int × Bool :=
  if userInput.isEmpty then (none, false)
  else parsePregnancyPatterns userInput

/-- `NLUProcessor.state_abbreviations`, in source (dict-insertion) order:
abbreviation ↦ full name. -/
def stateAbbrevPairs : List (List Char × List Char) :=
  [("AL".data, "Alabama".data), ("AK".data, "Alaska".data),
   ("AZ".data, "Arizona".data), ("AR".data, "Arkansas".data),
   ("CA".data, "California".data), ("CO".data, "Colorado".data),
   ("CT".data, "Connecticut".data), ("DE".data, "Delaware".data),
   ("FL".data, "Florida".data), ("GA".data, "Georgia".data),
   ("HI".data, "Hawaii".data), ("ID".data, "Idaho".data),
   ("IL".data, "Illinois".data), ("IN".data, "Indiana".data),
   ("IA".data, "Iowa".data), ("KS".data, "Kansas".data),
   ("KY".data, "Kentucky".data), ("LA".data, "Louisiana".data),
   ("ME".data, "Maine".data), ("MD".data, "Maryland".data),
   ("MA".data, "Massachusetts".data), ("MI".data, "Michigan".data),
   ("MN".data, "Minnesota".data), ("MS".data, "Mississippi".data),
   ("MO".data, "Missouri".data), ("MT".data, "Montana".data),
   ("NE".data, "Nebraska".data), ("NV".data, "Nevada".data),
   ("NH".data, "New Hampshire".data), ("NJ".data, "New Jersey".data),
   ("NM".data, "New Mexico".data), ("NY".data, "New York".data),
   ("NC".data, "North Carolina".data), ("ND".data, "North Dakota".data),
   ("OH".data, "Ohio".data), ("OK".data, "Oklahoma".data),
   ("OR".data, "Oregon".data), ("PA".data, "Pennsylvania".data),
   ("RI".data, "Rhode Island".data), ("SC".data, "South Carolina".data),
   ("SD".data, "South Dakota".data), ("TN".data, "Tennessee".data),
   ("TX".data, "Texas".data), ("UT".data, "Utah".data),
   ("VT".data, "Vermont".data), ("VA".data, "Virginia".data),
   ("WA".data, "Washington".data), ("WV".data, "West Virginia".data),
   ("WI".data, "Wisconsin".data), ("WY".data, "Wyoming".data),
   ("DC".data, "District of Columbia".data)]

/-- `re.search(r'\b' + lit + r'\b', s)` for a literal made of word
characters (all abbreviations and state names are). -/
def searchWordLit (lit : List Char) (s : List Char) : Bool :=
  (searchB (fun prev t =>
    if boundaryOk prev then
      match litAt lit t with
      | some r => if endBoundary r then some () else none
      | none => none
    else none) none s).isSome

/-- The abbreviation loop of `_parse_state_patterns` (case-sensitive search
on the raw input, dict order). -/
def findStateAbbrev : List (List Char × List Char) → List Char → Option (List Char)
  | [], _ => none
  | (ab, full) :: rest, s =>
    if searchWordLit ab s then some full else findStateAbbrev rest s

/-- The full-name loop of `_parse_state_patterns` (case-insensitive search,
`list(values())` order); returns the canonical name from the table. -/
def findStateName : List (List Char) → List Char → Option (List Char)
  | [], _ => none
  | nm :: rest, s =>
    if searchWordLit (toLowerL nm) (toLowerL s) then some nm
    else findStateName rest s

/-- `NLUProcessor._parse_state_patterns`. -/
def parseStatePatterns (userInput : List Char) : Option (List Char) :=
  match findStateAbbrev stateAbbrevPairs userInput with
  | some full => some full
  | none => findStateName (stateAbbrevPairs.map Prod.snd) userInput

/-- `NLUProcessor.interpret_state` with the oracle unavailable. -/
def interpretState (userInput : List Char) : Option (List Char) :=
  if userInput.isEmpty then none else parseStatePatterns userInput

/-- The normal-development indicator list shared by
`interpret_yes_no`'s milestones special case and
`_process_milestones_response`. -/
def milestonesNormalIndicators : List (List Char) :=
  [("no delays".data), ("meeting milestones".data), ("on track".data),
   ("normal development".data), ("no major delays".data),
   ("everything seems normal".data), ("developing normally".data),
   ("no issues".data), ("no problems".data), ("no concerns".data),
   ("normal".data), ("typical".data)]

/-- Exact-match affirmative words (`interpret_yes_no` quick check). -/
def yesWords : List (List Char) :=
  [("yes".data), ("yeah".data), ("yep".data), ("yup".data), ("sure".data),
   ("definitely".data), ("absolutely".data), ("correct".data)]

/-- Exact-match negative words (`interpret_yes_no` quick check). -/
def noWords : List (List Char) :=
  [("no".data), ("nope".data), ("not".data), ("never".data), ("negative".data)]

/-- Cooling-therapy indicators, shared by `_parse_yes_no_patterns` and
`_analyze_for_implied_answers`. -/
def coolingIndicators : List (List Char) :=
  [("cooling".data), ("hypothermia".data), ("hie therapy".data),
   ("head cool".data), ("cooling blanket".data)]

/-- Cooling-therapy negative phrases (same two call sites). -/
def coolingNegative : List (List Char) :=
  [("no cooling".data), (withApos "didn" "t receive cooling"),
   ("without cooling".data), ("no hypothermia".data)]

/-- Brain-scan indicators (same two call sites). -/
def scanIndicators : List (List Char) :=
  [("mri".data), ("brain scan".data), ("head scan".data), ("cat scan".data),
   ("ct scan".data), ("ultrasound".data)]

/-- Brain-scan negative phrases (same two call sites). -/
def scanNegative : List (List Char) :=
  [("no scan".data), (withApos "didn" "t have scan"), ("no mri".data),
   ("without scan".data), ("no scans".data)]

/-- `_parse_yes_no_patterns` positive phrases. -/
def positivePhrases : List (List Char) :=
  [("i do".data), ("we did".data), ("that is right".data),
   ("that is correct".data), (withApos "that" "s right"),
   (withApos "that" "s correct"), ("had to".data), ("did have".data),
   ("we had".data), ("they did".data), ("doctor".data), ("received".data),
   ("cooling".data), ("blanket".data), ("mri".data), ("brain scan".data),
   ("scan".data), ("behind".data), ("delayed".data), ("delay".data),
   ("missing".data), ("not meeting".data), ("therapy".data),
   ("treatment".data), ("cool".data), ("attorney".data), ("spoke".data),
   ("spoken".data)]

/-- `_parse_yes_no_patterns` uncertainty phrases. -/
def uncertaintyPhrases : List (List Char) :=
  [("i think".data), ("maybe".data), ("possibly".data), ("probably".data),
   ("might have".data), ("could have".data), ("not sure".data)]

/-- `_parse_yes_no_patterns` negation tokens. -/
def negativeIndicators : List (List Char) :=
  [("no".data), ("not".data), ("never".data), (withApos "don" "t"),
   (withApos "didn" "t"), (withApos "doesn" "t"), (withApos "don" "t think")]

/-- `NLUProcessor._parse_yes_no_patterns` (fallback branch). -/
def parseYesNoPatterns (userInput ctx : List Char) : Bool :=
  let ml := pyStrip (toLowerL userInput)
  let cx := toLowerL ctx
  let coolingCase : Option Bool :=
    if (containsL ("cooling".data) cx || containsL ("hie therapy".data) cx)
        && containsAny ml coolingIndicators then
      some (¬ containsAny ml coolingNegative)
    else none
  match coolingCase with
  | some b => b
  | none =>
    let scanCase : Option Bool :=
      if (containsL ("brain scan".data) cx || containsL ("mri".data) cx)
          && containsAny ml scanIndicators then
        some (¬ containsAny ml scanNegative)
      else none
    match scanCase with
    | some b => b
    | none =>
      if containsAny ml positivePhrases then true
      else if containsAny ml uncertaintyPhrases then
        ¬ containsAny ml negativeIndicators
      else false

/-- `NLUProcessor.interpret_yes_no` with the oracle unavailable: milestones
special case, exact-word quick checks, then the pattern fallback. -/
def interpretYesNo (userInput ctx : List Char) : Bool :=
  if userInput.isEmpty then false
  else if containsL ("developmental milestones".data) (toLowerL ctx)
      && containsAny (toLowerL userInput) milestonesNormalIndicators then false
  else
    let l := pyStrip (toLowerL userInput)
    if yesWords.contains l then true
    else if noWords.contains l then false
    else parseYesNoPatterns userInput ctx

/-! ## Eligibility checker (`EligibilityChecker`)

The criteria table is external read-only data (`criteria.json`): it is
modelled abstractly as an excluded-state list plus an association list
`state ↦ minorSOL string`.  A state present in the JSON without a usable
`minorSOL` value behaves exactly like an empty SOL string (both are falsy in
the source's `if state_sol and ...` guard), so the empty string covers it. -/

/-- The abstract criteria table. -/
structure Criteria where
  excludedStates : List (List Char) := []
  stateSOL : List (List Char × List Char) := []
deriving DecidableEq, Repr

/-- The fixed apology for an excluded state:
`"We apologize, but we are currently not accepting cases from {state}."`. -/
def exclusionReason (state : List Char) : List Char :=
  ("We apologize, but we are currently not accepting cases from ".data)
    ++ state ++ [('.')]

/-- The global age-ceiling reason. -/
def ageCeilingReason : List Char :=
  (withApos "We apologize, but based on your child" "s age, we cannot proceed with your case.")

/-- The state-specific SOL failure reason. -/
def stateReqReason (state : List Char) : List Char :=
  (withApos "We apologize, but based on your child" "s age and ") ++ state
    ++ (withApos "" "s requirements, we cannot proceed with your case.")

/-- The missing-age reason. -/
def noAgeReason : List Char :=
  ("Unable to determine age eligibility without age information.".data)

/-- `EligibilityChecker.check_state_exclusion` (an empty state string is
falsy and short-circuits to "not excluded"). -/
def checkStateExclusion (crit : Criteria) (state : List Char) :
    Bool × Option (List Char) :=
  if state.isEmpty then (false, none)
  else if crit.excludedStates.contains state then (true, some (exclusionReason state))
  else (false, none)

/-- `EligibilityChecker.parse_sol_age`: `(\d+)(?:st|nd|rd|th)\s*birthday`
first, then `(\d+)\s*years?`, then any bare `(\d+)`; `None` for a falsy
string. The ordinal suffixes have pairwise distinct first characters. -/
def matchBirthdayAt (s : List Char) : Option Nat :=
  match span1 Char.isDigit s with
  | none => none
  | some (ds, r) =>
    match tryLits [("st".data), ("nd".data), ("rd".data), ("th".data)] r with
    | none => none
    | some r1 =>
      if (litAt ("birthday".data) (spanStar isPySpace r1)).isSome then
        some (digitsToNat ds)
      else none

/-- `(\d+)\s*years?` at the current position. -/
def matchYearsAt (s : List Char) : Option Nat :=
  match span1 Char.isDigit s with
  | none => none
  | some (ds, r) =>
    if (litAt ("year".data) (spanStar isPySpace r)).isSome then
      some (digitsToNat ds)
    else none

/-- `(\d+)` anywhere. -/
def matchAnyNumAt (s : List Char) : Option Nat :=
  match span1 Char.isDigit s with
  | none => none
  | some (ds, _) => some (digitsToNat ds)

/-- `EligibilityChecker.parse_sol_age`. -/
def parseSolAge (solString : List Char) : Option ℚ :=
  if solString.isEmpty then none
  else
    match searchL matchBirthdayAt solString with
    | some n => some (n : ℚ)
    | none =>
      match searchL matchYearsAt solString with
      | some n => some (n : ℚ)
      | none =>
        match searchL matchAnyNumAt solString with
        | some n => some (n : ℚ)
        | none => none

/-- `EligibilityChecker.is_within_sol`. -/
def isWithinSol (currentAge : ℚ) (solString : List Char) : Bool :=
  match parseSolAge solString with
  | none => false
  | some solAge => currentAge < solAge

/-- `EligibilityChecker.check_age_eligibility`. -/
def checkAgeEligibility (crit : Criteria) (age : Option ℚ)
    (state : Option (List Char)) : Bool × Option (List Char) :=
  match age with
  | none => (false, some noAgeReason)
  | some a =>
    if 21 ≤ a then (false, some ageCeilingReason)
    else
      match state with
      | some st =>
        if ¬ st.isEmpty then
          match List.lookup st crit.stateSOL with
          | some sol =>
            if ¬ sol.isEmpty ∧ ¬ isWithinSol a sol then
              (false, some (stateReqReason st))
            else (true, none)
          | none => (true, none)
        else (true, none)
      | none => (true, none)

/-- `EligibilityChecker.check_comprehensive_eligibility`. -/
def checkComprehensiveEligibility (crit : Criteria) (age : Option ℚ)
    (state : Option (List Char)) : Bool × Option (List Char) :=
  match age, state with
  | some a, some st =>
    let ex := checkStateExclusion crit st
    if ex.1 then (false, ex.2)
    else
      let el := checkAgeEligibility crit (some a) (some st)
      if ¬ el.1 then (false, el.2) else (true, none)
  | some a, none =>
    let el := checkAgeEligibility crit (some a) none
    if ¬ el.1 then (false, el.2) else (true, none)
  | none, _ => (true, none)

/-- `EligibilityChecker.validate_age_range`. -/
def validateAgeRange (age : ℚ) : Bool :=
  0 ≤ age ∧ age ≤ 25

/-- `EligibilityChecker.normalize_age` on a present age: round to one
decimal, clamp into [0, 25]. -/
def normalizeAgeQ (age : ℚ) : ℚ :=
  let a := round1 age
  if a < 0 then 0 else if 25 < a then 25 else a

/-! ## Conversation manager (`ConversationManager`) -/

/-- The interview phases plus the terminal `complete`. -/
inductive Phase
  | age
  | pregnancy
  | nicu
  | nicuDuration
  | hieTherapy
  | brainScan
  | milestones
  | lawyer
  | state
  | complete
deriving DecidableEq, Repr

/-- A dynamically-typed phase `value` (Python stores floats, ints, bools or
raw message strings in the same slot). -/
inductive Val
  | vQ (q : ℚ)
  | vI (n : Int)
  | vB (b : Bool)
  | vS (s : List Char)
deriving DecidableEq, Repr

/-- Python truthiness of an optional phase value
(`self.phases.get(...).get('value', False)` used as a condition). -/
def valTruthy : Option Val → Bool
  | none => false
  | some (.vB b) => b
  | some (.vS s) => ¬ s.isEmpty
  | some (.vI n) => n ≠ 0
  | some (.vQ q) => q ≠ 0

/-- One entry of `self.phases` (the `question` text is static and omitted). -/
structure PhaseEntry where
  complete : Bool := false
  value : Option Val := none
deriving DecidableEq, Repr

/-- `self.phases` (dict-insertion order `age … state` is carried by
`interviewPhases` below). -/
structure Phases where
  age : PhaseEntry := {}
  pregnancy : PhaseEntry := {}
  nicu : PhaseEntry := {}
  nicuDuration : PhaseEntry := {}
  hieTherapy : PhaseEntry := {}
  brainScan : PhaseEntry := {}
  milestones : PhaseEntry := {}
  lawyer : PhaseEntry := {}
  state : PhaseEntry := {}
deriving DecidableEq, Repr

/-- `self.implied_answers`. -/
structure Implied where
  nicu : Option Bool := none
  nicuDuration : Option Int := none
  hieTherapy : Option Bool := none
  brainScan : Option Bool := none
  milestones : Option Bool := none
  lawyer : Option Bool := none
  state : Option (List Char) := none
deriving DecidableEq, Repr

/-- The whole per-session conversation state (the criteria table is the
constructor-supplied read-only input). -/
structure ConvState where
  crit : Criteria := {}
  currentPhase : Phase := .age
  emptyResponseCount : Nat := 0
  caseData : CaseData := {}
  implied : Implied := {}
  phases : Phases := {}
deriving DecidableEq, Repr

/-- The response dictionary: one field per key the source ever sets
(`error`, `age`, `sympathy_message`, `eligible`/`reason`, `back`, `help`,
`end_chat`; the long help/farewell texts are static and modelled as flags). -/
structure Response where
  error : Option (List Char) := none
  ageOut : Option ℚ := none
  sympathy : Bool := false
  eligibleFail : Option (List Char) := none
  isBack : Bool := false
  help : Bool := false
  endChat : Bool := false
deriving DecidableEq, Repr

/-- `list(self.phases.keys())`. -/
def interviewPhases : List Phase :=
  [.age, .pregnancy, .nicu, .nicuDuration, .hieTherapy, .brainScan,
   .milestones, .lawyer, .state]

/-- Set one phase's `complete` flag to `False` (used by "back"; the stored
`value` is kept, as in the source). -/
def setPhaseIncomplete (ph : Phases) : Phase → Phases
  | .age => { ph with age := { ph.age with complete := false } }
  | .pregnancy => { ph with pregnancy := { ph.pregnancy with complete := false } }
  | .nicu => { ph with nicu := { ph.nicu with complete := false } }
  | .nicuDuration => { ph with nicuDuration := { ph.nicuDuration with complete := false } }
  | .hieTherapy => { ph with hieTherapy := { ph.hieTherapy with complete := false } }
  | .brainScan => { ph with brainScan := { ph.brainScan with complete := false } }
  | .milestones => { ph with milestones := { ph.milestones with complete := false } }
  | .lawyer => { ph with lawyer := { ph.lawyer with complete := false } }
  | .state => { ph with state := { ph.state with complete := false } }
  | .complete => ph

/-- `CaseDataManager.update_phase_completion` (never called with the
terminal phase). -/
def setCompleted (pc : PhasesCompleted) : Phase → PhasesCompleted
  | .age => { pc with age := true }
  | .pregnancy => { pc with pregnancy := true }
  | .nicu => { pc with nicu := true }
  | .nicuDuration => { pc with nicuDuration := true }
  | .hieTherapy => { pc with hieTherapy := true }
  | .brainScan => { pc with brainScan := true }
  | .milestones => { pc with milestones := true }
  | .lawyer => { pc with lawyer := true }
  | .state => { pc with state := true }
  | .complete => pc

/-! ### Implied-answer extraction (`_analyze_for_implied_answers`)

The source mutates the `implied_answers` dict sequentially; every write to a
given key depends only on the (lower-cased) message, never on another key,
and the compound "28 weeks / nicu / cooling" override runs after all
per-topic blocks.  The scan is therefore embedded field-wise, each field
composing its per-topic block with the compound override in source order. -/

/-- NICU mention indicators. -/
def nicuIndicators : List (List Char) :=
  [("nicu".data), ("intensive care".data), ("incubator".data),
   ("special care".data)]

/-- NICU negative phrases. -/
def nicuNegative : List (List Char) :=
  [(withApos "didn" "t go"), ("did not go".data), ("no nicu".data),
   (withApos "wasn" "t in"), ("never went".data), ("avoided".data),
   ("no need".data), ("went home".data), ("straight home".data)]

/-- Developmental-delay indicators. -/
def delayIndicators : List (List Char) :=
  [("delay".data), ("behind".data), ("missing milestone".data),
   ("developmental".data), ("not meeting".data), ("therapy".data),
   ("pt".data), ("ot".data), ("speech".data), ("physical therapy".data)]

/-- Normal-development phrases used by the implied-milestones block (a
shorter list than the milestones-response override list). -/
def impliedNormalIndicators : List (List Char) :=
  [("no delay".data), ("on track".data), ("normal development".data),
   ("meeting milestone".data), ("developing normally".data),
   ("no major delays".data), ("everything seems normal".data)]

/-- Lawyer mention indicators. -/
def lawyerIndicators : List (List Char) :=
  [("lawyer".data), ("attorney".data), ("legal".data), ("law firm".data),
   ("lawsuit".data), ("case review".data), ("litigation".data)]

/-- Lawyer negative phrases. -/
def lawyerNegative : List (List Char) :=
  [("no lawyer".data), (withApos "haven" "t seen"),
   (withApos "didn" "t consult"), ("not yet".data), ("looking for".data)]

/-- The compound-message trigger: `'28 weeks' and 'nicu' and 'cooling'`. -/
def compoundTrigger (ml : List Char) : Bool :=
  containsL ("28 weeks".data) ml && containsL ("nicu".data) ml
    && containsL ("cooling".data) ml

/-- Implied `nicu`: per-topic block, then the compound override. -/
def impliedNicuVal (ml : List Char) (old : Option Bool) : Option Bool :=
  let afterInd :=
    if containsAny ml nicuIndicators then
      if containsAny ml nicuNegative then some false else some true
    else old
  if compoundTrigger ml then some true else afterInd

/-- Implied `nicu_duration`: the NICU-duration regex, then the compound
override (30 days when `month` occurs). -/
def impliedDurationVal (ml : List Char) (old : Option Int) : Option Int :=
  let afterRe :=
    match searchL matchNicuDurAt ml with
    | some (n, u) => some (durConvert n u)
    | none => old
  if compoundTrigger ml && containsL ("month".data) ml then some 30 else afterRe

/-- Implied `hie_therapy`: per-topic block, then the compound override. -/
def impliedHieVal (ml : List Char) (old : Option Bool) : Option Bool :=
  let afterInd :=
    if containsAny ml coolingIndicators then
      if containsAny ml coolingNegative then some false else some true
    else old
  if compoundTrigger ml then some true else afterInd

/-- Implied `brain_scan` (no compound override). -/
def impliedScanVal (ml : List Char) (old : Option Bool) : Option Bool :=
  if containsAny ml scanIndicators then
    if containsAny ml scanNegative then some false else some true
  else old

/-- Implied `milestones`: per-topic block, then the compound override
(`delay` present). -/
def impliedMilestonesVal (ml : List Char) (old : Option Bool) : Option Bool :=
  let afterInd :=
    if containsAny ml delayIndicators then
      if containsAny ml impliedNormalIndicators then some false else some true
    else old
  if compoundTrigger ml && containsL ("delay".data) ml then some true else afterInd

/-- Implied `lawyer` (no compound override). -/
def impliedLawyerVal (ml : List Char) (old : Option Bool) : Option Bool :=
  if containsAny ml lawyerIndicators then
    if containsAny ml lawyerNegative then some false else some true
  else old

/-- `ConversationManager._analyze_for_implied_answers` on a non-empty
message (the caller guarantees non-emptiness; `interpret_state` receives the
raw, un-lowercased message, as in the source). -/
def scanImplied (m : List Char) (ia : Implied) : Implied :=
  let ml := toLowerL m
  { nicu := impliedNicuVal ml ia.nicu
    nicuDuration := impliedDurationVal ml ia.nicuDuration
    hieTherapy := impliedHieVal ml ia.hieTherapy
    brainScan := impliedScanVal ml ia.brainScan
    milestones := impliedMilestonesVal ml ia.milestones
    lawyer := impliedLawyerVal ml ia.lawyer
    state :=
      match interpretState m with
      | some s => some s
      | none => ia.state }

/-! ### Phase handlers -/

/-- Context string passed to `interpret_yes_no` at the nicu phase. -/
def ctxNicu : List Char := ("Did the child go to NICU after birth".data)

/-- Context string at the hie_therapy phase. -/
def ctxHie : List Char :=
  ("Did the child receive head cooling or HIE therapy".data)

/-- Context string at the brain_scan phase. -/
def ctxScan : List Char :=
  ("Did the child receive an MRI or brain scan while in the NICU".data)

/-- Context string at the milestones phase. -/
def ctxMilestones : List Char :=
  ("Is the child missing developmental milestones or has delays".data)

/-- Context string at the lawyer phase. -/
def ctxLawyer : List Char :=
  ("Has the family previously consulted a lawyer about this case".data)

/-- `"Please provide your child's age."`. -/
def agePromptErr : List Char :=
  (withApos "Please provide your child" "s age.")

/-- The could-not-understand-age error message. -/
def ageParseErr : List Char :=
  ("I couldn".data) ++ apoc ::
    ("t understand the age provided. Please provide the age in years, like ".data)
    ++ apoc :: ("5".data) ++ apoc :: (" or ".data) ++ apoc :: ("5 years old".data)
    ++ apoc :: (".".data)

/-- The age-out-of-range error message. -/
def ageRangeErr : List Char :=
  ("Please provide a valid age between 0 and 25 years.".data)

/-- `ConversationManager._analyze_age_response`. -/
def analyzeAgeResp (m : List Char) : Option ℚ × Option (List Char) :=
  if (pyStrip m).isEmpty then (none, some agePromptErr)
  else
    match interpretAge m with
    | none => (none, some ageParseErr)
    | some pa =>
      let na := normalizeAgeQ pa
      if ¬ validateAgeRange na then (none, some ageRangeErr)
      else (some na, none)

/-- `ConversationManager._process_age_response`. -/
def processAgeResponse (s : ConvState) (m : List Char) : ConvState × Response :=
  let ar := analyzeAgeResp m
  match ar.2 with
  | some err => (s, { error := some err })
  | none =>
    let ageO := ar.1
    let s1 := { s with
      phases := { s.phases with age := { complete := true, value := ageO.map Val.vQ } },
      caseData := { s.caseData with
        age := ageO,
        phasesCompleted := setCompleted s.caseData.phasesCompleted .age } }
    let el := checkComprehensiveEligibility s1.crit ageO none
    if ¬ el.1 then (s1, { eligibleFail := el.2 })
    else ({ s1 with currentPhase := .pregnancy }, { ageOut := ageO })

/-- `ConversationManager._handle_implied_nicu_answer` (called with the
implied `nicu` known to be set; a `None` value is falsy in the source's
`if not ...`, which `Option.getD false` reproduces). -/
def handleImpliedNicu (s : ConvState) (resp : Response) : ConvState × Response :=
  let s1 := { s with
    phases := { s.phases with nicu := { complete := true, value := s.implied.nicu.map Val.vB } },
    caseData := { s.caseData with
      phasesCompleted := setCompleted s.caseData.phasesCompleted .nicu } }
  if ¬ (s1.implied.nicu.getD false) then
    let cd := applyNicuPoints s1.caseData false none
    let ph := if 36 ≤ cd.weeksPregnant then Phase.hieTherapy else Phase.milestones
    ({ s1 with caseData := cd, currentPhase := ph }, resp)
  else
    let cd := applyNicuPoints s1.caseData true none
    match s1.implied.nicuDuration with
    | some d =>
      let s2 := { s1 with
        caseData := cd,
        phases := { s1.phases with
          nicuDuration := { complete := true, value := some (.vI d) } } }
      let s3 := { s2 with caseData := { s2.caseData with
        phasesCompleted := setCompleted s2.caseData.phasesCompleted .nicuDuration } }
      let cd2 := applyNicuPoints s3.caseData true (some d)
      let ph := if 36 ≤ cd2.weeksPregnant then Phase.hieTherapy else Phase.brainScan
      ({ s3 with caseData := cd2, currentPhase := ph }, resp)
    | none =>
      ({ s1 with caseData := cd, currentPhase := .nicuDuration }, resp)

/-- `ConversationManager._process_pregnancy_response`. -/
def processPregnancyResponse (s : ConvState) (m : List Char) : ConvState × Response :=
  let s1 := { s with
    phases := { s.phases with pregnancy := { complete := true, value := some (.vS m) } },
    caseData := { s.caseData with
      phasesCompleted := setCompleted s.caseData.phasesCompleted .pregnancy } }
  let pd := interpretPregnancyDetails m
  let s2 := { s1 with caseData := applyPregnancyPoints s1.caseData pd.1 pd.2 }
  let resp : Response := { sympathy := pd.2 }
  match s2.implied.nicu with
  | some _ => handleImpliedNicu s2 resp
  | none => ({ s2 with currentPhase := .nicu }, resp)

/-- `ConversationManager._process_nicu_response`. -/
def processNicuResponse (s : ConvState) (m : List Char) : ConvState × Response :=
  let isNicu := interpretYesNo m ctxNicu
  let s1 := { s with
    phases := { s.phases with nicu := { complete := true, value := some (.vB isNicu) } },
    caseData := { s.caseData with
      phasesCompleted := setCompleted s.caseData.phasesCompleted .nicu } }
  let cd := applyNicuPoints s1.caseData isNicu none
  let ph :=
    if ¬ isNicu then
      if 36 ≤ cd.weeksPregnant then Phase.hieTherapy else Phase.milestones
    else Phase.nicuDuration
  ({ s1 with caseData := cd, currentPhase := ph }, {})

/-- `ConversationManager._handle_implied_hie_answer`. -/
def handleImpliedHie (s : ConvState) : ConvState × Response :=
  let s1 := { s with
    phases := { s.phases with
      hieTherapy := { complete := true, value := s.implied.hieTherapy.map Val.vB } },
    caseData := { s.caseData with
      phasesCompleted := setCompleted s.caseData.phasesCompleted .hieTherapy } }
  let cd := applyHieTherapyPoints s1.caseData (s1.implied.hieTherapy.getD false)
  let ph := if ¬ valTruthy s1.phases.nicu.value then Phase.milestones else Phase.brainScan
  ({ s1 with caseData := cd, currentPhase := ph }, {})

/-- `ConversationManager._handle_implied_brain_scan_answer`. -/
def handleImpliedBrainScan (s : ConvState) : ConvState × Response :=
  let s1 := { s with
    phases := { s.phases with
      brainScan := { complete := true, value := s.implied.brainScan.map Val.vB } },
    caseData := { s.caseData with
      phasesCompleted := setCompleted s.caseData.phasesCompleted .brainScan } }
  let cd := applyBrainScanPoints s1.caseData (s1.implied.brainScan.getD false)
  ({ s1 with caseData := cd, currentPhase := .milestones }, {})

/-- `ConversationManager._process_nicu_duration_response`. -/
def processNicuDurationResponse (s : ConvState) (m : List Char) : ConvState × Response :=
  let s1 := { s with
    phases := { s.phases with
      nicuDuration := { complete := true, value := some (.vS m) } },
    caseData := { s.caseData with
      phasesCompleted := setCompleted s.caseData.phasesCompleted .nicuDuration } }
  let d := interpretDuration m
  let s2 := { s1 with caseData := applyNicuPoints s1.caseData true (some d) }
  match s2.implied.hieTherapy with
  | some _ => handleImpliedHie s2
  | none =>
    match s2.implied.brainScan with
    | some _ => handleImpliedBrainScan s2
    | none =>
      let ph := if 36 ≤ s2.caseData.weeksPregnant then Phase.hieTherapy
        else Phase.brainScan
      ({ s2 with currentPhase := ph }, {})

/-- `ConversationManager._process_hie_therapy_response`. -/
def processHieResponse (s : ConvState) (m : List Char) : ConvState × Response :=
  let receivedHie := interpretYesNo m ctxHie
  let s1 := { s with
    phases := { s.phases with
      hieTherapy := { complete := true, value := some (.vB receivedHie) } },
    caseData := { s.caseData with
      phasesCompleted := setCompleted s.caseData.phasesCompleted .hieTherapy } }
  let s2 := { s1 with caseData := applyHieTherapyPoints s1.caseData receivedHie }
  match s2.implied.brainScan with
  | some _ => handleImpliedBrainScan s2
  | none =>
    let ph := if ¬ valTruthy s2.phases.nicu.value then Phase.milestones
      else Phase.brainScan
    ({ s2 with currentPhase := ph }, {})

/-- `ConversationManager._handle_implied_milestones_answer`. -/
def handleImpliedMilestones (s : ConvState) : ConvState × Response :=
  let s1 := { s with
    phases := { s.phases with
      milestones := { complete := true, value := s.implied.milestones.map Val.vB } },
    caseData := { s.caseData with
      phasesCompleted := setCompleted s.caseData.phasesCompleted .milestones } }
  let cd := applyMilestonesPoints s1.caseData (s1.implied.milestones.getD false)
  ({ s1 with caseData := cd, currentPhase := .lawyer }, {})

/-- `ConversationManager._process_brain_scan_response`. -/
def processBrainScanResponse (s : ConvState) (m : List Char) : ConvState × Response :=
  let receivedScan := interpretYesNo m ctxScan
  let s1 := { s with
    phases := { s.phases with
      brainScan := { complete := true, value := some (.vB receivedScan) } },
    caseData := { s.caseData with
      phasesCompleted := setCompleted s.caseData.phasesCompleted .brainScan } }
  let s2 := { s1 with caseData := applyBrainScanPoints s1.caseData receivedScan }
  match s2.implied.milestones with
  | some _ => handleImpliedMilestones s2
  | none => ({ s2 with currentPhase := .milestones }, {})

/-- `ConversationManager._handle_implied_state_answer`. -/
def handleImpliedState (s : ConvState) : ConvState × Response :=
  let stO := s.implied.state
  let s1 := { s with
    phases := { s.phases with state := { complete := true, value := stO.map Val.vS } },
    caseData := { s.caseData with
      state := stO,
      phasesCompleted := setCompleted s.caseData.phasesCompleted .state } }
  let el := checkComprehensiveEligibility s1.crit s1.caseData.age stO
  if ¬ el.1 then (s1, { eligibleFail := el.2 })
  else ({ s1 with currentPhase := .complete }, {})

/-- `ConversationManager._handle_implied_lawyer_answer`. -/
def handleImpliedLawyer (s : ConvState) : ConvState × Response :=
  let s1 := { s with
    phases := { s.phases with
      lawyer := { complete := true, value := s.implied.lawyer.map Val.vB } },
    caseData := { s.caseData with
      phasesCompleted := setCompleted s.caseData.phasesCompleted .lawyer } }
  let s2 := { s1 with caseData := applyLawyerPoints s1.caseData (s1.implied.lawyer.getD false) }
  if s2.implied.lawyer.getD false then (s2, { endChat := true })
  else
    match s2.implied.state with
    | some _ => handleImpliedState s2
    | none => ({ s2 with currentPhase := .state }, {})

/-- `ConversationManager._process_milestones_response`. -/
def processMilestonesResponse (s : ConvState) (m : List Char) : ConvState × Response :=
  let ml := toLowerL m
  let hasDelays :=
    if containsAny ml milestonesNormalIndicators then false
    else interpretYesNo m ctxMilestones
  let s1 := { s with
    phases := { s.phases with
      milestones := { complete := true, value := some (.vS m) } },
    caseData := { s.caseData with
      phasesCompleted := setCompleted s.caseData.phasesCompleted .milestones } }
  let s2 := { s1 with caseData := applyMilestonesPoints s1.caseData hasDelays }
  match s2.implied.lawyer with
  | some _ => handleImpliedLawyer s2
  | none => ({ s2 with currentPhase := .lawyer }, {})

/-- `ConversationManager._process_lawyer_response`. -/
def processLawyerResponse (s : ConvState) (m : List Char) : ConvState × Response :=
  let prevConsultation := interpretYesNo m ctxLawyer
  let s1 := { s with
    phases := { s.phases with
      lawyer := { complete := true, value := some (.vB prevConsultation) } },
    caseData := { s.caseData with
      phasesCompleted := setCompleted s.caseData.phasesCompleted .lawyer } }
  let s2 := { s1 with caseData := applyLawyerPoints s1.caseData prevConsultation }
  if prevConsultation then (s2, { endChat := true })
  else
    match s2.implied.state with
    | some _ => handleImpliedState s2
    | none => ({ s2 with currentPhase := .state }, {})

/-- `ConversationManager._process_state_response` (the save to disk on
completion is external persistence and has no effect on the session state). -/
def processStateResponse (s : ConvState) (m : List Char) : ConvState × Response :=
  let st :=
    match interpretState m with
    | some x => x
    | none => pyStrip m
  let s1 := { s with
    phases := { s.phases with state := { complete := true, value := some (.vS st) } },
    caseData := { s.caseData with
      state := some st,
      phasesCompleted := setCompleted s.caseData.phasesCompleted .state } }
  let el := checkComprehensiveEligibility s1.crit s1.caseData.age (some st)
  if ¬ el.1 then (s1, { eligibleFail := el.2 })
  else ({ s1 with currentPhase := .complete }, {})

/-! ### Session commands and the per-message entry point -/

/-- `_is_back_command`'s indicator list. -/
def backIndicators : List (List Char) :=
  [("back".data), ("previous".data), ("go back".data), ("return".data)]

/-- `ConversationManager._is_back_command` (unanchored substring match on
the lower-cased message). -/
def isBackCommand (m : List Char) : Bool :=
  containsAny (toLowerL m) backIndicators

/-- `_is_help_command`'s indicator list. -/
def helpIndicators : List (List Char) :=
  [("help".data), ("confused".data), (withApos "don" "t understand"),
   (withApos "what" "s this"), ("explain".data)]

/-- `ConversationManager._is_help_command`. -/
def isHelpCommand (m : List Char) : Bool :=
  let lo := toLowerL m
  helpIndicators.contains lo || containsAny lo helpIndicators

/-- `"An error occurred. Let's continue with the current question."`. -/
def backErrGeneric : List Char :=
  (withApos "An error occurred. Let" "s continue with the current question.")

/-- `"We can't go back any further. Let's continue with the current question."`. -/
def backErrFirst : List Char :=
  ("We can".data) ++ apoc :: ("t go back any further. Let".data) ++ apoc ::
    ("s continue with the current question.".data)

/-- `ConversationManager._handle_back_request`: locate the current phase in
the phase-key list (the terminal `complete` is absent, raising `ValueError`
in the source, the generic-error branch here); at index 0 a warning no-op;
otherwise step back one phase and reopen it. -/
def handleBackRequest (s : ConvState) : ConvState × Response :=
  match interviewPhases.findIdx? (fun p => p == s.currentPhase) with
  | none => (s, { error := some backErrGeneric })
  | some i =>
    if i = 0 then (s, { error := some backErrFirst })
    else
      match interviewPhases[i-1]? with
      | some prev =>
        ({ s with currentPhase := prev, phases := setPhaseIncomplete s.phases prev },
         { isBack := true })
      | none => (s, { error := some backErrGeneric })

/-- `ConversationManager.analyze_response`: strip; an empty message only
increments the empty counter; otherwise reset the counter, handle the back
and help commands, run the implied-answer scan, then dispatch on the current
phase (the source's catch-all `except` around the dispatch is unreachable
for these total handlers). -/
def analyzeResponse (s : ConvState) (raw : List Char) : ConvState × Response :=
  let m := pyStrip raw
  if m.isEmpty then
    ({ s with emptyResponseCount := s.emptyResponseCount + 1 }, {})
  else
    let s := { s with emptyResponseCount := 0 }
    if isBackCommand m then handleBackRequest s
    else if isHelpCommand m then (s, { help := true })
    else
      let s := { s with implied := scanImplied m s.implied }
      match s.currentPhase with
      | .age => processAgeResponse s m
      | .pregnancy => processPregnancyResponse s m
      | .nicu => processNicuResponse s m
      | .nicuDuration => processNicuDurationResponse s m
      | .hieTherapy => processHieResponse s m
      | .brainScan => processBrainScanResponse s m
      | .milestones => processMilestonesResponse s m
      | .lawyer => processLawyerResponse s m
      | .state => processStateResponse s m
      | .complete => (s, {})

/-- A fresh session (`ConversationManager.__init__`) over a given criteria
table. -/
def initConvState (crit : Criteria) : ConvState := { crit := crit }

/-! ## Concrete fixtures used by the theorems -/

/-- A session positioned at the pregnancy phase (fresh otherwise). -/
def c2Start : ConvState := { currentPhase := .pregnancy }

/-- The end-to-end scenario message. -/
def c2Msg : List Char :=
  ("28 weeks, NICU for a month, cooling therapy, some delays".data)

/-- A criteria table whose excluded-state list contains Ohio. -/
def exCrit : Criteria := { excludedStates := [("Ohio".data)] }

/-- A criteria table giving New York the SOL rule "25th birthday". -/
def solCrit : Criteria :=
  { stateSOL := [(("New York".data), ("25th birthday".data))] }

/-- A criteria table giving California the SOL rule "18th birthday". -/
def caCrit : Criteria :=
  { stateSOL := [(("California".data), ("18th birthday".data))] }

/-- A session positioned at the nicu phase (fresh otherwise, 50 points). -/
def c6Start : ConvState := { currentPhase := .nicu }

/-- A session positioned at the lawyer phase (fresh otherwise). -/
def c9Start : ConvState := { currentPhase := .lawyer }

/-- The phase one position earlier in `interviewPhases` (identity on the two
phases "back" cannot step from). -/
def prevPhase : Phase → Phase
  | .pregnancy => .age
  | .nicu => .pregnancy
  | .nicuDuration => .nicu
  | .hieTherapy => .nicuDuration
  | .brainScan => .hieTherapy
  | .milestones => .brainScan
  | .lawyer => .milestones
  | .state => .lawyer
  | .age => .age
  | .complete => .complete

/-- A capture string starting with a decimal digit (all age-pattern captures
have this shape). -/
def headDigit (ds : List Char) : Prop :=
  ∃ d t, ds = d :: t ∧ d.isDigit = true

/-! ## Theorems -/

theorem ranking_ite_eq (r r' : Ranking) : (if r ≠ r' then r else r') = r := by
  by_cases h : r = r' <;> simp [h]

theorem updatePoints_inv (cd : CaseData) (delta : Int) :
    pointsRankingInv (updatePoints cd delta) := by
  unfold pointsRankingInv updatePoints
  dsimp only
  refine ⟨?_, ?_⟩
  · split <;> omega
  · rw [ranking_ite_eq]

theorem inv_of_ite {c : Prop} [Decidable c] (a b : CaseData) (x y : Int) :
    pointsRankingInv (if c then updatePoints a x else updatePoints b y) := by
  split <;> apply updatePoints_inv

theorem applyPregnancyPoints_inv (cd : CaseData) (w : Option Int) (dd : Bool) :
    pointsRankingInv (applyPregnancyPoints cd w dd) := by
  unfold applyPregnancyPoints
  rcases w with _ | w <;> dsimp only <;> exact inv_of_ite _ _ _ _

theorem applyNicuPoints_inv (cd : CaseData) (b : Bool) (d : Option Int) :
    pointsRankingInv (applyNicuPoints cd b d) := by
  unfold applyNicuPoints
  split
  · apply updatePoints_inv
  · rcases d with _ | d <;> dsimp only
    · apply updatePoints_inv
    · split
      · split
        · apply updatePoints_inv
        · split
          · apply updatePoints_inv
          · exact inv_of_ite _ _ _ _
      · apply updatePoints_inv

theorem calculateRanking_highest (p : Int) (hp : 0 ≤ p) :
    rankingThreshold (calculateRanking p) ≤ p
      ∧ ∀ t, rankingThreshold t ≤ p → rankIdx t ≤ rankIdx (calculateRanking p) := by
  unfold calculateRanking
  split_ifs with h1 h2 h3 <;>
    refine ⟨by simp [rankingThreshold]; omega, fun t ht => ?_⟩ <;>
    cases t <;> simp [rankingThreshold, rankIdx] at * <;> omega

theorem applyHieTherapyPoints_inv (cd : CaseData) (b : Bool)
    (h : pointsRankingInv cd) : pointsRankingInv (applyHieTherapyPoints cd b) := by
  unfold applyHieTherapyPoints
  split
  · apply updatePoints_inv
  · exact h

theorem applyBrainScanPoints_inv (cd : CaseData) (b : Bool) :
    pointsRankingInv (applyBrainScanPoints cd b) :=
  inv_of_ite _ _ _ _

theorem applyMilestonesPoints_inv (cd : CaseData) (b : Bool) :
    pointsRankingInv (applyMilestonesPoints cd b) :=
  inv_of_ite _ _ _ _

theorem applyLawyerPoints_inv (cd : CaseData) (b : Bool) :
    pointsRankingInv (applyLawyerPoints cd b) :=
  inv_of_ite _ _ _ _

/-- Claim C1 (confirmed): every call to update_points leaves the case
record with points >= 0 and with ranking equal to the tier recomputed from
the points (so after any sequence of deltas the ranking is never stale);
the recomputed tier is the highest tier whose threshold is <= points in the
descending scan very high:80, high:65, normal:40, low:0; in particular 79
points rank 'high' and 80 points rank 'very high'; and every apply_*_points
helper preserves (indeed re-establishes) the invariant. -/
theorem c1_points_ranking_invariant :
    (∀ (cd : CaseData) (delta : Int), pointsRankingInv (updatePoints cd delta))
    ∧ (∀ (cd : CaseData) (ds : List Int) (delta : Int),
        pointsRankingInv (updatePoints (ds.foldl updatePoints cd) delta))
    ∧ (∀ p : Int, 0 ≤ p →
        rankingThreshold (calculateRanking p) ≤ p
          ∧ ∀ t, rankingThreshold t ≤ p → rankIdx t ≤ rankIdx (calculateRanking p))
    ∧ (calculateRanking 79 = .high ∧ calculateRanking 80 = .veryHigh)
    ∧ (∀ (cd : CaseData) (w : Option Int) (dd : Bool),
        pointsRankingInv (applyPregnancyPoints cd w dd))
    ∧ (∀ (cd : CaseData) (b : Bool) (d : Option Int),
        pointsRankingInv (applyNicuPoints cd b d))
    ∧ (∀ (cd : CaseData) (b : Bool),
        pointsRankingInv cd → pointsRankingInv (applyHieTherapyPoints cd b))
    ∧ (∀ (cd : CaseData) (b : Bool), pointsRankingInv (applyBrainScanPoints cd b))
    ∧ (∀ (cd : CaseData) (b : Bool), pointsRankingInv (applyMilestonesPoints cd b))
    ∧ (∀ (cd : CaseData) (b : Bool), pointsRankingInv (applyLawyerPoints cd b)) :=
  ⟨updatePoints_inv,
   fun cd ds delta => updatePoints_inv (ds.foldl updatePoints cd) delta,
   calculateRanking_highest,
   ⟨by decide, by decide⟩,
   applyPregnancyPoints_inv,
   applyNicuPoints_inv,
   applyHieTherapyPoints_inv,
   applyBrainScanPoints_inv,
   applyMilestonesPoints_inv,
   applyLawyerPoints_inv⟩

theorem c1_points_ranking_invariant_witness :
    (rankingThreshold (calculateRanking 50) ≤ 50
      ∧ ∀ t, rankingThreshold t ≤ 50 → rankIdx t ≤ rankIdx (calculateRanking 50))
    ∧ pointsRankingInv (applyHieTherapyPoints (updatePoints {} 0) true) :=
  ⟨c1_points_ranking_invariant.2.2.1 50 (by decide),
   c1_points_ranking_invariant.2.2.2.2.2.2.1 (updatePoints {} 0) true
     (c1_points_ranking_invariant.1 {} 0)⟩

/-- Claim C2 counterexample: processing "28 weeks, NICU for a month,
cooling therapy, some delays" at the pregnancy phase (oracle unavailable)
leaves current_phase at brain_scan, not at 'lawyer' as the claim states. -/
theorem c2_counterexample :
    (analyzeResponse c2Start c2Msg).1.currentPhase = Phase.brainScan
      ∧ Phase.brainScan ≠ Phase.lawyer := by
  constructor
  · decide
  · decide

/-- Claim C2 (corrected): the one analyze_response step on that message
sets weeks_pregnant=28 and difficult_delivery=true ('nicu' is a
difficult-delivery keyword), marks implied nicu=true, nicu_duration=30,
hie_therapy=true and milestones=true, records the nicu and nicu_duration
phases complete, and leaves current_phase at brain_scan with points 110
(50 +15 premature +15 difficult delivery +10 NICU stay +10 NICU stay again
with the duration +10 duration > 14d) and ranking 'very high'. -/
theorem c2_amended_one_step :
    analyzeResponse c2Start c2Msg =
      ({ currentPhase := .brainScan,
         caseData := { weeksPregnant := 28, difficultDelivery := true,
                       points := 110, ranking := .veryHigh,
                       phasesCompleted := { pregnancy := true, nicu := true,
                                            nicuDuration := true } },
         implied := { nicu := some true, nicuDuration := some 30,
                      hieTherapy := some true, milestones := some true },
         phases := { pregnancy := { complete := true, value := some (.vS c2Msg) },
                     nicu := { complete := true, value := some (.vB true) },
                     nicuDuration := { complete := true, value := some (.vI 30) } } },
       { sympathy := true }) := by
  decide

theorem impliedNicuVal_idem (ml : List Char) (old : Option Bool) :
    impliedNicuVal ml (impliedNicuVal ml old) = impliedNicuVal ml old := by
  unfold impliedNicuVal
  dsimp only
  split_ifs <;> rfl

theorem impliedDurationVal_idem (ml : List Char) (old : Option Int) :
    impliedDurationVal ml (impliedDurationVal ml old) = impliedDurationVal ml old := by
  unfold impliedDurationVal
  cases h : searchL matchNicuDurAt ml <;> dsimp only <;> split_ifs <;> rfl

theorem impliedHieVal_idem (ml : List Char) (old : Option Bool) :
    impliedHieVal ml (impliedHieVal ml old) = impliedHieVal ml old := by
  unfold impliedHieVal
  dsimp only
  split_ifs <;> rfl

theorem impliedScanVal_idem (ml : List Char) (old : Option Bool) :
    impliedScanVal ml (impliedScanVal ml old) = impliedScanVal ml old := by
  unfold impliedScanVal
  split_ifs <;> rfl

theorem impliedMilestonesVal_idem (ml : List Char) (old : Option Bool) :
    impliedMilestonesVal ml (impliedMilestonesVal ml old) = impliedMilestonesVal ml old := by
  unfold impliedMilestonesVal
  dsimp only
  split_ifs <;> rfl

theorem impliedLawyerVal_idem (ml : List Char) (old : Option Bool) :
    impliedLawyerVal ml (impliedLawyerVal ml old) = impliedLawyerVal ml old := by
  unfold impliedLawyerVal
  split_ifs <;> rfl

/-- Claim C7 (confirmed): the implied-answer scan is idempotent - for
every message and every starting ImpliedAnswers map, scanning the same
message twice yields the same map as scanning it once (no double
application of the compound heuristic or of any per-topic rule). -/
theorem c7_implied_scan_idempotent (m : List Char) (ia : Implied) :
    scanImplied m (scanImplied m ia) = scanImplied m ia := by
  unfold scanImplied
  dsimp only
  simp only [Implied.mk.injEq]
  refine ⟨impliedNicuVal_idem _ _, impliedDurationVal_idem _ _,
    impliedHieVal_idem _ _, impliedScanVal_idem _ _,
    impliedMilestonesVal_idem _ _, impliedLawyerVal_idem _ _, ?_⟩
  cases h : interpretState m <;> simp [h]

/-- Claim C8 (confirmed): the back command at the first phase ('age') is
a no-op with an explanatory warning - the whole session state (current
phase, every phase's value/complete flag, points, ranking, case record) is
returned unchanged; at any later interview phase it moves exactly one phase
backward, resets that phase's complete flag to false, and changes nothing
else. -/
theorem c8_back_one_phase :
    (∀ s : ConvState, s.currentPhase = .age →
        handleBackRequest s = (s, { error := some backErrFirst }))
    ∧ (∀ (s : ConvState) (p : Phase), s.currentPhase = p → p ≠ .age → p ≠ .complete →
        handleBackRequest s
          = ({ s with
                currentPhase := prevPhase p,
                phases := setPhaseIncomplete s.phases (prevPhase p) },
             { isBack := true })) := by
  constructor
  · intro s h
    unfold handleBackRequest
    simp only [h]
    rfl
  · intro s p h hp hc
    cases p
    case age => exact absurd rfl hp
    case complete => exact absurd rfl hc
    all_goals (unfold handleBackRequest; simp only [h]; rfl)

theorem c8_back_one_phase_witness :
    handleBackRequest { currentPhase := Phase.age }
        = ({ currentPhase := Phase.age }, { error := some backErrFirst })
      ∧ handleBackRequest { currentPhase := Phase.nicu }
        = ({ ({ currentPhase := Phase.nicu } : ConvState) with
             currentPhase := prevPhase Phase.nicu,
             phases := setPhaseIncomplete ({} : Phases) (prevPhase Phase.nicu) },
           { isBack := true }) :=
  ⟨c8_back_one_phase.1 { currentPhase := Phase.age } rfl,
   c8_back_one_phase.2 { currentPhase := Phase.nicu } Phase.nicu rfl
     (by decide) (by decide)⟩

theorem back_nonempty_strip (raw : List Char)
    (h : containsAny (toLowerL (pyStrip raw)) backIndicators = true) :
    (pyStrip raw).isEmpty = false := by
  cases hm : pyStrip raw with
  | nil => rw [hm] at h; exact absurd h (by decide)
  | cons c cs => rfl

/-- Claim C10 (confirmed): command recognition is by unanchored substring
match - any message whose lower-cased stripped text contains 'back',
'previous', 'go back' or 'return' anywhere is handled entirely by
_handle_back_request (checked before the help command and before any
implied-answer scan or phase processing), never as an answer to the
current phase. -/
theorem c10_back_substring_command (s : ConvState) (raw : List Char)
    (h : containsAny (toLowerL (pyStrip raw)) backIndicators = true) :
    analyzeResponse s raw = handleBackRequest { s with emptyResponseCount := 0 } := by
  have hb : isBackCommand (pyStrip raw) = true := h
  unfold analyzeResponse
  simp only [back_nonempty_strip raw h, hb, Bool.false_eq_true, if_false, if_true]

theorem c10_back_substring_command_witness :
    analyzeResponse {} ("he went back home after a week".data)
      = handleBackRequest { ({} : ConvState) with emptyResponseCount := 0 } :=
  c10_back_substring_command {} (("he went back home after a week".data)) (by decide)

theorem searchL_prop {α : Type} {P : α → Prop} (f : List Char → Option α)
    (hf : ∀ t a, f t = some a → P a) :
    ∀ s a, searchL f s = some a → P a := by
  intro s
  induction s with
  | nil =>
    intro a h
    rw [searchL] at h
    exact hf [] a h
  | cons c cs ih =>
    intro a h
    rw [searchL] at h
    cases hc : f (c :: cs) with
    | some r =>
      simp only [hc] at h
      cases h
      exact hf _ _ hc
    | none =>
      simp only [hc] at h
      exact ih a h

theorem span1_head {p : Char → Bool} {s ds r : List Char}
    (h : span1 p s = some (ds, r)) : ∃ d t, ds = d :: t ∧ p d = true := by
  unfold span1 at h
  by_cases he : (List.takeWhile p s).isEmpty
  · rw [if_pos he] at h; cases h
  · rw [if_neg he] at h
    injection h with h1
    injection h1 with hds hr
    subst hds
    cases hs : List.takeWhile p s with
    | nil => rw [hs] at he; exact absurd rfl he
    | cons d t =>
      refine ⟨d, t, rfl, ?_⟩
      cases s with
      | nil => simp at hs
      | cons c cs =>
        rw [List.takeWhile_cons] at hs
        by_cases hc : p c = true
        · rw [if_pos hc] at hs
          injection hs with hdc _
          rwa [hdc] at hc
        · rw [if_neg hc] at hs; cases hs

theorem numCap_head {s ds r : List Char} (h : numCap s = some (ds, r)) :
    headDigit ds := by
  unfold numCap at h
  cases hn : span1 Char.isDigit s with
  | none => rw [hn] at h; cases h
  | some pr =>
    obtain ⟨ds0, rest⟩ := pr
    rw [hn] at h
    obtain ⟨d, t, rfl, hd⟩ := span1_head hn
    dsimp only at h
    split at h
    · cases h2 : span1 Char.isDigit _ with
      | some pr2 =>
        obtain ⟨fs, r3⟩ := pr2
        rw [h2] at h
        dsimp only at h
        cases h
        exact ⟨d, t ++ '.' :: fs, rfl, hd⟩
      | none =>
        rw [h2] at h
        dsimp only at h
        cases h
        exact ⟨d, t, rfl, hd⟩
    · cases h
      exact ⟨d, t, rfl, hd⟩

theorem agePat1At_head {s ds : List Char} (h : agePat1At s = some ds) :
    headDigit ds := by
  unfold agePat1At at h
  cases hn : numCap s with
  | none => rw [hn] at h; cases h
  | some pr =>
    obtain ⟨ds0, r1⟩ := pr
    rw [hn] at h
    dsimp only at h
    cases hy : dropYearUnit (spanStar isPySpace r1) with
    | none => rw [hy] at h; cases h
    | some r2 =>
      rw [hy] at h
      dsimp only at h
      cases ho : litAt ("old".data) (spanStar isPySpace r2) with
      | none => rw [ho] at h; cases h
      | some _ =>
        rw [ho] at h
        dsimp only at h
        cases h
        exact numCap_head hn

theorem agePat2At_head {s ds : List Char} (h : agePat2At s = some ds) :
    headDigit ds := by
  unfold agePat2At at h
  cases hn : numCap s with
  | none => rw [hn] at h; cases h
  | some pr =>
    obtain ⟨ds0, r1⟩ := pr
    rw [hn] at h
    dsimp only at h
    cases hy : dropYearUnit (spanStar isPySpace r1) with
    | none => rw [hy] at h; cases h
    | some r2 =>
      rw [hy] at h
      dsimp only at h
      cases h
      exact numCap_head hn

theorem agePat3At_head {s ds : List Char} (h : agePat3At s = some ds) :
    headDigit ds := by
  unfold agePat3At at h
  cases ht : tryLits [("is".data), ("turned".data), ("age".data)] s with
  | none => rw [ht] at h; cases h
  | some r =>
    rw [ht] at h
    dsimp only at h
    cases hn : numCap (spanStar isPySpace r) with
    | none => rw [hn] at h; cases h
    | some pr =>
      obtain ⟨ds0, r1⟩ := pr
      rw [hn] at h
      dsimp only at h
      cases h
      exact numCap_head hn

theorem agePat4Full_head {s ds : List Char} (h : agePat4Full s = some ds) :
    headDigit ds := by
  unfold agePat4Full at h
  split at h
  · cases h
    next heq => exact numCap_head heq
  · cases h

theorem agePatFracAt_head {alts : List (List Char)} {s ds : List Char}
    (h : agePatFracAt alts s = some ds) : headDigit ds := by
  unfold agePatFracAt at h
  cases hn : span1 Char.isDigit s with
  | none => rw [hn] at h; cases h
  | some pr =>
    obtain ⟨ds0, r⟩ := pr
    rw [hn] at h
    dsimp only at h
    split_ifs at h
    cases h
    exact span1_head hn

theorem agePatLitNumAt_head {lit : List Char} {s ds : List Char}
    (h : agePatLitNumAt lit s = some ds) : headDigit ds := by
  unfold agePatLitNumAt at h
  cases hl : litAt lit s with
  | none => rw [hl] at h; cases h
  | some r =>
    rw [hl] at h
    dsimp only at h
    cases hn : span1 Char.isDigit (spanStar isPySpace r) with
    | none => rw [hn] at h; cases h
    | some pr =>
      obtain ⟨ds0, r1⟩ := pr
      rw [hn] at h
      dsimp only at h
      cases h
      exact span1_head hn

theorem textToNum_digit_head (d : Char) (t : List Char) (hd : d.isDigit = true) :
    textToNum (d :: t) = none := by
  unfold textToNum
  rw [List.lookup_eq_none_iff]
  intro pr hpr
  have hall : textToNumKeys.all
      (fun pr => match pr.1 with | [] => true | c :: _ => !c.isDigit) = true := by
    decide
  have hf := List.all_eq_true.mp hall pr hpr
  cases h1 : pr.1 with
  | nil => rfl
  | cons c cs =>
    rw [h1] at hf
    have hcd : c.isDigit = false := by simpa using hf
    rw [bne_iff_ne]
    intro he
    injection he with h2 h3
    rw [← h2] at hcd
    rw [hd] at hcd
    cases hcd

theorem agePatterns_head :
    ∀ f ∈ agePatterns, ∀ s ds, f s = some ds → headDigit ds := by
  intro f hf
  simp only [agePatterns, List.mem_cons, List.not_mem_nil, or_false] at hf
  rcases hf with rfl | rfl | rfl | rfl | rfl | rfl | rfl | rfl | rfl
  · exact searchL_prop _ (fun t a h => agePat1At_head h)
  · exact searchL_prop _ (fun t a h => agePat2At_head h)
  · exact searchL_prop _ (fun t a h => agePat3At_head h)
  · exact fun s ds h => agePat4Full_head h
  · exact searchL_prop _ (fun t a h => agePatFracAt_head h)
  · exact searchL_prop _ (fun t a h => agePatFracAt_head h)
  · exact searchL_prop _ (fun t a h => agePatFracAt_head h)
  · exact searchL_prop _ (fun t a h => agePatLitNumAt_head h)
  · exact searchL_prop _ (fun t a h => agePatLitNumAt_head h)

theorem tryAgePatterns_range :
    ∀ (fs : List (List Char → Option (List Char))),
      (∀ f ∈ fs, ∀ s ds, f s = some ds → headDigit ds) →
      ∀ s v, tryAgePatterns fs s = some v → 0 ≤ v ∧ v ≤ 25 := by
  intro fs
  induction fs with
  | nil =>
    intro _ s v h
    rw [tryAgePatterns] at h
    cases h
  | cons f fs ih =>
    intro hfs s v h
    rw [tryAgePatterns] at h
    cases hf : f s with
    | none =>
      rw [hf] at h
      exact ih (fun g hg => hfs g (List.mem_cons_of_mem f hg)) s v h
    | some cap =>
      rw [hf] at h
      dsimp only at h
      obtain ⟨d, t, rfl, hd⟩ := hfs f (List.mem_cons_self f fs) s cap hf
      rw [textToNum_digit_head d t hd] at h
      dsimp only at h
      cases hp : parseFloatQ (d :: t) with
      | none =>
        rw [hp] at h
        exact ih (fun g hg => hfs g (List.mem_cons_of_mem f hg)) s v h
      | some a =>
        rw [hp] at h
        dsimp only at h
        split_ifs at h with hcond
        · cases h; exact hcond
        · exact ih (fun g hg => hfs g (List.mem_cons_of_mem f hg)) s v h

/-- Claim C3 (corrected): whenever the months-old, almost-N and
fraction-word branches of _parse_age_patterns all fail to match, a returned
value lies in [0, 25] (the numeric pattern-list loop discards out-of-range
parses); the three exempted branches return unvalidated values. -/
theorem c3_age_range_amended (input : List Char) (v : ℚ)
    (h1 : searchL matchMonthsOldAt (pyStrip (toLowerL input)) = none)
    (h2 : searchL matchAlmostAt (pyStrip (toLowerL input)) = none)
    (h3 : fractionScan fractionMods (pyStrip (toLowerL input)) = none)
    (h : parseAgePatterns input = some v) : 0 ≤ v ∧ v ≤ 25 := by
  unfold parseAgePatterns at h
  simp only [h1, h2, h3] at h
  exact tryAgePatterns_range agePatterns agePatterns_head _ v h

section
set_option allowUnsafeReducibility true
attribute [local semireducible] Rat.add Rat.mul Rat.sub Rat.inv

/-- Claim C3 counterexample: the months-old branch returns a value
outside [0, 25] - "600 months old" parses to 50.0, which is not
discarded. -/
theorem c3_counterexample :
    parseAgePatterns ("600 months old".data) = some 50 ∧ ¬ ((50 : ℚ) ≤ 25) :=
  ⟨by decide, by decide⟩

end

theorem c3_age_range_amended_witness : 0 ≤ (5 : ℚ) ∧ (5 : ℚ) ≤ 25 :=
  c3_age_range_amended ("5 years old".data) 5 (by decide) (by decide) (by decide)
    (by decide)

/-- Claim C4 counterexample: with age absent (None) and the state on the
excluded list, the comprehensive check returns eligible, not the claimed
ineligible-with-apology. -/
theorem c4_counterexample :
    checkComprehensiveEligibility exCrit none (some ("Ohio".data)) = (true, none)
      ∧ exCrit.excludedStates.contains ("Ohio".data) = true :=
  ⟨rfl, by decide⟩

/-- Claim C4 (corrected): for every given (non-None) age and every
non-empty excluded state the comprehensive check is ineligible with the
fixed apology reason, evaluated before any age rule (the same apology for
every age); with age None the check skips the exclusion rule entirely and
returns eligible. -/
theorem c4_excluded_state_amended :
    (∀ (crit : Criteria) (a : ℚ) (st : List Char),
        st ≠ [] → crit.excludedStates.contains st = true →
        checkComprehensiveEligibility crit (some a) (some st)
          = (false, some (exclusionReason st)))
    ∧ (∀ (crit : Criteria) (st : List Char),
        checkComprehensiveEligibility crit none (some st) = (true, none)) := by
  constructor
  · intro crit a st hne hmem
    have hE : st.isEmpty = false := by
      cases st
      · exact absurd rfl hne
      · rfl
    have hm : st ∈ crit.excludedStates := by simpa using hmem
    unfold checkComprehensiveEligibility checkStateExclusion
    simp [hE, hm]
  · intro crit st
    rfl

theorem c4_excluded_state_amended_witness :
    checkComprehensiveEligibility exCrit (some 5) (some ("Ohio".data))
        = (false, some (exclusionReason ("Ohio".data)))
      ∧ checkComprehensiveEligibility exCrit none (some ("Ohio".data)) = (true, none) :=
  ⟨c4_excluded_state_amended.1 exCrit 5 (("Ohio".data)) (by decide) (by decide),
   c4_excluded_state_amended.2 exCrit (("Ohio".data))⟩

/-- Claim C5 counterexample: with SOL "25th birthday" (cutoff 25) and
age 22 < 25 on a non-excluded state, the check is ineligible - the claimed
"eligible iff age < cutoff" fails because the 21 ceiling runs first. -/
theorem c5_counterexample :
    parseSolAge ("25th birthday".data) = some 25
      ∧ ((22 : ℚ) < 25)
      ∧ (checkComprehensiveEligibility solCrit (some 22) (some ("New York".data))).1
          = false :=
  ⟨by decide, by decide, by decide⟩

/-- Claim C5 (corrected): for a given age and a non-excluded state whose
SOL string parses to cutoff c (birthday pattern first, then years, then a
bare integer), the check is eligible iff age < 21 and age < c; the claim's
particulars hold: age 21 with no state is ineligible (global ceiling), and
age 10 with SOL "18th birthday" is eligible. -/
theorem c5_sol_cutoff_amended :
    (∀ (crit : Criteria) (a : ℚ) (st sol : List Char) (c : ℚ),
        crit.excludedStates.contains st = false →
        st ≠ [] →
        List.lookup st crit.stateSOL = some sol →
        sol ≠ [] →
        parseSolAge sol = some c →
        ((checkComprehensiveEligibility crit (some a) (some st)).1 = true
          ↔ (a < 21 ∧ a < c)))
    ∧ (∀ crit : Criteria,
        checkComprehensiveEligibility crit (some 21) none
          = (false, some ageCeilingReason))
    ∧ checkComprehensiveEligibility caCrit (some 10) (some ("California".data))
        = (true, none) := by
  refine ⟨?_, ?_, by decide⟩
  · intro crit a st sol c hnex hne hlk hsolne hparse
    have hE : st.isEmpty = false := by
      cases st
      · exact absurd rfl hne
      · rfl
    have hsE : sol.isEmpty = false := by
      cases sol
      · exact absurd rfl hsolne
      · rfl
    have hnm : ¬ st ∈ crit.excludedStates := by
      intro hm
      rw [show crit.excludedStates.contains st = true by simpa using hm] at hnex
      cases hnex
    unfold checkComprehensiveEligibility checkStateExclusion checkAgeEligibility
    unfold isWithinSol
    simp only [hE, hlk, hparse, hsE, Bool.false_eq_true, if_false]
    by_cases h21 : (21 : ℚ) ≤ a
    · simp [hnm, h21, not_lt.mpr h21]
    · by_cases hac : a < c
      · simp [hnm, h21, hac, not_le.mp h21]
      · simp [hnm, h21, hac, not_le.mp h21]
  · intro crit
    rfl

theorem c5_sol_cutoff_amended_witness :
    (checkComprehensiveEligibility caCrit (some 10) (some ("California".data))).1 = true
      ↔ ((10 : ℚ) < 21 ∧ (10 : ℚ) < 18) :=
  c5_sol_cutoff_amended.1 caCrit 10 (("California".data)) (("18th birthday".data)) 18
    (by decide) (by decide) (by decide) (by decide) (by decide)

/-- Claim C6 counterexample: answering 'yes' at the nicu phase and then
'2 weeks' at the nicu_duration phase takes points from 50 to 60 and then
to 75 = 50 + 10 + 10 + 5: the +10 NICU-stay delta entered twice, so it is
not added exactly once per session. -/
theorem c6_counterexample :
    (analyzeResponse c6Start ("yes".data)).1.caseData.points = 60
      ∧ (analyzeResponse (analyzeResponse c6Start ("yes".data)).1
          ("2 weeks".data)).1.caseData.points = 75
      ∧ (75 : Int) ≠ 50 + 10 + 5 :=
  ⟨by decide, by decide, by decide⟩

theorem applyNicu_twice_fourteen (cd : CaseData) (h : 0 ≤ cd.points) :
    (applyNicuPoints (applyNicuPoints cd true none) true (some 14)).points
      = cd.points + 25 := by
  simp only [applyNicuPoints, updatePoints]
  norm_num
  split_ifs <;> omega

theorem applyNicu_twice_thirty (cd : CaseData) (h : 0 ≤ cd.points) :
    (applyNicuPoints (applyNicuPoints cd true none) true (some 30)).points
      = cd.points + 30 := by
  simp only [applyNicuPoints, updatePoints]
  norm_num
  split_ifs <;> omega

/-- Claim C6 (corrected): apply_nicu_points adds the +10 stay delta on
every call with had_nicu=True, and the conversation calls it twice in any
session that records a duration - once when the nicu answer is recorded and
once more together with the duration (both in the normal path and in the
implied-answer path) - so such sessions gain +20 of stay delta plus the
duration bonus: +25 total for a 14-day stay, +30 for a 30-day stay. -/
theorem c6_nicu_delta_twice_amended :
    (∀ cd : CaseData, 0 ≤ cd.points →
        (applyNicuPoints (applyNicuPoints cd true none) true (some 14)).points
          = cd.points + 25)
    ∧ (∀ cd : CaseData, 0 ≤ cd.points →
        (applyNicuPoints (applyNicuPoints cd true none) true (some 30)).points
          = cd.points + 30)
    ∧ (analyzeResponse (analyzeResponse c6Start ("yes".data)).1
        ("2 weeks".data)).1.caseData.points = 50 + (10 + 10 + 5) :=
  ⟨applyNicu_twice_fourteen, applyNicu_twice_thirty, by decide⟩

theorem c6_nicu_delta_twice_amended_witness :
    (applyNicuPoints (applyNicuPoints {} true none) true (some 14)).points
      = ({} : CaseData).points + 25 :=
  c6_nicu_delta_twice_amended.1 {} (by decide)

theorem checkAgeEligibility_false_reason (crit : Criteria) (a : Option ℚ)
    (st : Option (List Char)) (h : (checkAgeEligibility crit a st).1 = false) :
    ∃ r, (checkAgeEligibility crit a st).2 = some r := by
  rcases a with _ | a
  · exact ⟨_, rfl⟩
  · rcases st with _ | st
    · unfold checkAgeEligibility at h ⊢
      dsimp only at h ⊢
      by_cases h21 : (21 : ℚ) ≤ a
      · rw [if_pos h21]
        exact ⟨_, rfl⟩
      · rw [if_neg h21] at h
        cases h
    · unfold checkAgeEligibility at h ⊢
      dsimp only at h ⊢
      by_cases h21 : (21 : ℚ) ≤ a
      · rw [if_pos h21]
        exact ⟨_, rfl⟩
      · rw [if_neg h21] at h ⊢
        by_cases hE : st.isEmpty = true
        · rw [if_neg (by simpa using hE)] at h
          cases h
        · rw [if_pos (by simpa using hE)] at h ⊢
          cases hlk : List.lookup st crit.stateSOL with
          | none =>
            rw [hlk] at h
            simp at h
          | some sol =>
            rw [hlk] at h
            dsimp only at h ⊢
            by_cases hc : ¬ sol.isEmpty = true ∧ ¬ isWithinSol a sol = true
            · rw [if_pos hc]
              exact ⟨_, rfl⟩
            · rw [if_neg hc] at h
              simp at h

theorem comprehensive_false_reason (crit : Criteria) (a : Option ℚ)
    (st : Option (List Char))
    (h : (checkComprehensiveEligibility crit a st).1 = false) :
    ∃ r, (checkComprehensiveEligibility crit a st).2 = some r := by
  rcases a with _ | a
  · unfold checkComprehensiveEligibility at h
    rcases st with _ | st <;> cases h
  · rcases st with _ | st
    · unfold checkComprehensiveEligibility at h ⊢
      dsimp only at h ⊢
      by_cases h1 : (checkAgeEligibility crit (some a) none).1 = true
      · rw [if_neg (by simp [h1])] at h
        cases h
      · rw [if_pos (by simpa using h1)] at h ⊢
        exact checkAgeEligibility_false_reason crit (some a) none
          (by simpa using h1)
    · unfold checkComprehensiveEligibility at h ⊢
      dsimp only at h ⊢
      by_cases hx : (checkStateExclusion crit st).1 = true
      · rw [if_pos hx] at h ⊢
        unfold checkStateExclusion at hx ⊢
        by_cases hE : st.isEmpty = true
        · rw [if_pos hE] at hx
          cases hx
        · rw [if_neg hE] at hx ⊢
          by_cases hC : crit.excludedStates.contains st = true
          · rw [if_pos hC]
            exact ⟨_, rfl⟩
          · rw [if_neg hC] at hx
            cases hx
      · rw [if_neg hx] at h ⊢
        by_cases h1 : (checkAgeEligibility crit (some a) (some st)).1 = true
        · rw [if_neg (by simp [h1])] at h
          cases h
        · rw [if_pos (by simpa using h1)] at h ⊢
          exact checkAgeEligibility_false_reason crit (some a) (some st)
            (by simpa using h1)

/-- Claim C9 counterexample: answering 'yes' at the lawyer phase (no
eligibility failure) ends the chat but leaves current_phase at 'lawyer',
contradicting "it never remains at 'lawyer'". -/
theorem c9_counterexample :
    (analyzeResponse c9Start ("yes".data)).1.currentPhase = Phase.lawyer
      ∧ (analyzeResponse c9Start ("yes".data)).2.endChat = true :=
  ⟨by decide, by decide⟩

/-- Claim C9 (corrected): when the lawyer answer is interpreted as no
prior consultation and no eligibility failure occurs, the machine advances
to 'state' (or to 'complete' when an implied eligible state is consumed);
when the answer is yes, the chat ends (end_chat) and current_phase remains
unchanged at the lawyer phase - in both the direct and the implied-answer
handler. -/
theorem c9_lawyer_advance_amended :
    (∀ (s : ConvState) (m : List Char),
        (interpretYesNo m ctxLawyer = false →
          (processLawyerResponse s m).2.eligibleFail = none →
          ((processLawyerResponse s m).1.currentPhase = Phase.state
            ∨ (processLawyerResponse s m).1.currentPhase = Phase.complete))
        ∧ (interpretYesNo m ctxLawyer = true →
            (processLawyerResponse s m).1.currentPhase = s.currentPhase
              ∧ (processLawyerResponse s m).2.endChat = true))
    ∧ (∀ s : ConvState,
        (s.implied.lawyer = some false →
          (handleImpliedLawyer s).2.eligibleFail = none →
          ((handleImpliedLawyer s).1.currentPhase = Phase.state
            ∨ (handleImpliedLawyer s).1.currentPhase = Phase.complete))
        ∧ (s.implied.lawyer = some true →
            (handleImpliedLawyer s).1.currentPhase = s.currentPhase
              ∧ (handleImpliedLawyer s).2.endChat = true)) := by
  have himp : ∀ s : ConvState,
      (handleImpliedState s).2.eligibleFail = none →
      (handleImpliedState s).1.currentPhase = Phase.complete := by
    intro s hfail
    unfold handleImpliedState at hfail ⊢
    dsimp only at hfail ⊢
    split_ifs at hfail ⊢ with h1
    · rfl
    · dsimp only at hfail
      obtain ⟨r, hr⟩ := comprehensive_false_reason _ _ _ (by simpa using h1)
      rw [hr] at hfail
      cases hfail
  constructor
  · intro s m
    constructor
    · intro hyn hfail
      unfold processLawyerResponse at hfail ⊢
      rw [hyn] at hfail ⊢
      simp only [Bool.false_eq_true, if_false] at hfail ⊢
      cases hst : s.implied.state with
      | none => exact Or.inl rfl
      | some st =>
        rw [hst] at hfail
        dsimp only at hfail
        exact Or.inr (himp _ hfail)
    · intro hyn
      unfold processLawyerResponse
      rw [hyn]
      exact ⟨rfl, rfl⟩
  · intro s
    constructor
    · intro hl hfail
      unfold handleImpliedLawyer at hfail ⊢
      dsimp only at hfail ⊢
      rw [hl] at hfail ⊢
      simp only [Option.getD_some, Bool.false_eq_true, if_false] at hfail ⊢
      cases hst : s.implied.state with
      | none => exact Or.inl rfl
      | some st =>
        rw [hst] at hfail
        dsimp only at hfail
        exact Or.inr (himp _ hfail)
    · intro hl
      unfold handleImpliedLawyer
      dsimp only
      rw [hl]
      exact ⟨rfl, rfl⟩

theorem c9_lawyer_advance_amended_witness :
    ((processLawyerResponse c9Start ("no".data)).1.currentPhase = Phase.state
      ∨ (processLawyerResponse c9Start ("no".data)).1.currentPhase = Phase.complete)
      ∧ ((processLawyerResponse c9Start ("yes".data)).1.currentPhase
            = c9Start.currentPhase
          ∧ (processLawyerResponse c9Start ("yes".data)).2.endChat = true) :=
  ⟨(c9_lawyer_advance_amended.1 c9Start (("no".data))).1 (by decide) (by decide),
   (c9_lawyer_advance_amended.1 c9Start (("yes".data))).2 (by decide)⟩
